import Mathlib

/-!
Shallow embedding of the FRDM-IMX93 hardware verification tool.

Each C++ peripheral tester is embedded as a pure Lean function over an
explicit environment record.  The environment captures exactly the data the
tester reads from the operating system (file-existence flags, probe
outcomes, per-poll sensor samples); all control flow, thresholds and
aggregation logic are translated directly from the corresponding source
functions.  A report is represented by its `result` field, the only field
any of the verified properties inspects; the wall-clock metadata
(`duration`, `timestamp`) and the human-readable `details` text are
I/O-dependent and not modelled.

Monitoring loops of the form `while (now < end) { sample; sleep(interval) }`
are modelled by an idealized schedule in which the loop body is instantaneous,
so a requested duration of `d` seconds with an `interval`-second sleep runs
the body `ceil(d / interval)` times (`polls`), and the 100 ms GPIO loop runs
`10 * d` times (`polls100ms`).  Per-iteration OS reads are provided by the
environment as functions of the iteration index.
-/

namespace Imx93

/-- Test outcome enumeration, from `peripheral_tester.h` (`enum class TestResult`). -/
inductive TestResult
  | SUCCESS
  | FAILURE
  | NOT_SUPPORTED
  | TIMEOUT
  | SKIPPED
deriving DecidableEq, Repr, Fintype

/-- Models one `if (r != TestResult::SUCCESS) all_passed = false;` step of a
`short_test` aggregation ("strict" sub-check: `NOT_SUPPORTED` counts as failure). -/
def aggAnd (ap : Bool) (r : TestResult) : Bool :=
  if r ≠ TestResult.SUCCESS then false else ap

/-- Models one `if (r != SUCCESS && r != NOT_SUPPORTED) all_passed = false;` step
("lenient" sub-check: `NOT_SUPPORTED` is excluded from the aggregate). -/
def aggAndL (ap : Bool) (r : TestResult) : Bool :=
  if r ≠ TestResult.SUCCESS ∧ r ≠ TestResult.NOT_SUPPORTED then false else ap

/-- Models the final `all_passed ? TestResult::SUCCESS : TestResult::FAILURE`. -/
def verdict (ap : Bool) : TestResult :=
  if ap then TestResult.SUCCESS else TestResult.FAILURE

/-- Number of body executions of a `while (now < end) { body; sleep(interval) }`
loop for a requested duration of `d` seconds, under the idealized schedule in
which the body is instantaneous: `ceil(d / interval)`, and `0` for `d <= 0`. -/
def polls (d : Int) (interval : Nat) : Nat :=
  if d ≤ 0 then 0 else (d.toNat + interval - 1) / interval

/-- Body executions of the GPIO monitoring loop, which sleeps 100 ms per
iteration: `10 * d` for a duration of `d` seconds. -/
def polls100ms (d : Int) : Nat :=
  if d ≤ 0 then 0 else d.toNat * 10

/-! ### GPIO tester (`gpio_tester.cpp`) -/

/-- Environment of `GPIOTester`: availability flag cached by the constructor
(`fs::exists("/sys/class/gpio")`), outcomes of the sysfs pin operations, the
device-existence probes of the PWM/I2C/SPI/UART checks, and the per-iteration
result of `read_gpio(2)` during monitoring (`-1` denotes a failed read). -/
structure GPIOEnv where
  gpio_available : Bool
  exportOk : Nat → Bool
  setDirOk : Nat → Bool → Bool
  writeOk : Nat → Nat → Bool
  readVal : Nat → Int
  pwmChipExists : Bool
  i2cDev0 : Bool
  i2cDev1 : Bool
  spiDev0 : Bool
  spiDev1 : Bool
  uartDevAMA0 : Bool
  uartDevS0 : Bool
  monitorRead : Nat → Int

/-- One iteration of `GPIOTester::test_digital_io` for a single pin:
export, set direction out, write high, write low, set direction in, read. -/
def GPIOTester.pin_io_ok (e : GPIOEnv) (pin : Nat) : Bool :=
  e.exportOk pin && e.setDirOk pin true && e.writeOk pin 1 && e.writeOk pin 0 &&
    e.setDirOk pin false && (e.readVal pin != -1)

/-- Embeds `GPIOTester::test_digital_io` (pins 0, 1, 2; first failing step
returns `FAILURE`). -/
def GPIOTester.test_digital_io (e : GPIOEnv) : TestResult :=
  if [0, 1, 2].all (GPIOTester.pin_io_ok e) then .SUCCESS else .FAILURE

/-- Embeds `GPIOTester::test_pwm` (export pin 18, then check
`/sys/class/pwm/pwmchip0`). -/
def GPIOTester.test_pwm (e : GPIOEnv) : TestResult :=
  if !e.exportOk 18 then .FAILURE
  else if !e.pwmChipExists then .NOT_SUPPORTED
  else .SUCCESS

/-- Embeds `GPIOTester::test_i2c` (existence of `/dev/i2c-0` or `/dev/i2c-1`). -/
def GPIOTester.test_i2c (e : GPIOEnv) : TestResult :=
  if e.i2cDev0 || e.i2cDev1 then .SUCCESS else .NOT_SUPPORTED

/-- Embeds `GPIOTester::test_spi` (existence of `/dev/spidev0.0` or `/dev/spidev0.1`). -/
def GPIOTester.test_spi (e : GPIOEnv) : TestResult :=
  if e.spiDev0 || e.spiDev1 then .SUCCESS else .NOT_SUPPORTED

/-- Embeds `GPIOTester::test_uart` (existence of `/dev/ttyAMA0` or `/dev/ttyS0`). -/
def GPIOTester.test_uart (e : GPIOEnv) : TestResult :=
  if e.uartDevAMA0 || e.uartDevS0 then .SUCCESS else .NOT_SUPPORTED

/-- Aggregation of `GPIOTester::short_test` (lines 128-165): all five
sub-checks are compared against `SUCCESS` only. -/
def GPIOTester.short_test_core (digital pwm i2c spi uart : TestResult) : TestResult :=
  verdict (aggAnd (aggAnd (aggAnd (aggAnd (aggAnd true digital) pwm) i2c) spi) uart)

/-- Embeds `GPIOTester::short_test`: guard on `gpio_available_`, then the
five sub-checks. -/
def GPIOTester.short_test (e : GPIOEnv) : TestResult :=
  if !e.gpio_available then .NOT_SUPPORTED
  else
    GPIOTester.short_test_core (GPIOTester.test_digital_io e) (GPIOTester.test_pwm e)
      (GPIOTester.test_i2c e) (GPIOTester.test_spi e) (GPIOTester.test_uart e)

/-- Count of monitoring-loop iterations whose `read_gpio(2)` did not return `-1`
(the `stable_count` accumulator of `monitor_gpio_stability`). -/
def GPIOTester.stable_reads (e : GPIOEnv) (d : Int) : Nat :=
  ((List.range (polls100ms d)).filter (fun k => e.monitorRead k != -1)).length

/-- Models the C++ comparison
`static_cast<double>(stable_count) / total_reads >= 0.95`.  The source has no
guard against `total_reads == 0`; under IEEE-754 semantics `0.0 / 0` is NaN
and every comparison with NaN is false, which the `total = 0` branch models.
For `total > 0` the rational comparison agrees with the double one for all
iteration counts reachable here. -/
def stabilityPass (stable total : Nat) : Bool :=
  if total = 0 then false else decide ((stable : ℚ) / (total : ℚ) ≥ 95 / 100)

/-- Embeds `GPIOTester::monitor_gpio_stability` (lines 429-459): export pin 2
as input, sample `read_gpio(2)` every 100 ms, then compare the success ratio
against 0.95. -/
def GPIOTester.monitor_gpio_stability (e : GPIOEnv) (d : Int) : TestResult :=
  if !(e.exportOk 2 && e.setDirOk 2 false) then .FAILURE
  else if stabilityPass (GPIOTester.stable_reads e d) (polls100ms d) then .SUCCESS
  else .FAILURE

/-- Embeds `GPIOTester::monitor_test`: guard on `gpio_available_`, then the
stability loop. -/
def GPIOTester.monitor_test (e : GPIOEnv) (d : Int) : TestResult :=
  if !e.gpio_available then .NOT_SUPPORTED else GPIOTester.monitor_gpio_stability e d

/-! ### CPU tester (`cpu_tester.cpp`) -/

/-- Environment of `CPUTester`: availability flag cached by the constructor,
the value returned by `get_cpu_temperature()` during `short_test`
(`-1` means no sensor), `std::thread::hardware_concurrency()`, the cached
`npu_available` flag plus the NPU device/driver probes of `test_npu`, and the
per-poll temperature during monitoring. -/
structure CPUEnv where
  cpu_available : Bool
  tempC : ℚ
  num_threads : Nat
  npu_available : Bool
  npuDevNode : Bool
  npuLsmod : Bool
  monitorTemp : Nat → ℚ

/-- Trial-division primality check of `CPUTester::benchmark_cpu`
(`for (int i = 2; i <= std::sqrt(num); ++i)`). -/
def CPUTester.bench_is_prime (num : Nat) : Bool :=
  (List.range' 2 (Nat.sqrt num - 1)).all (fun i => num % i != 0)

/-- Prime list accumulated by `CPUTester::benchmark_cpu` for `num` in `[2, 10000]`. -/
def CPUTester.bench_primes : List Nat :=
  (List.range' 2 9999).filter CPUTester.bench_is_prime

/-- Embeds `CPUTester::benchmark_cpu`: fails when the prime list is empty or
its last element is not 9973. -/
def CPUTester.benchmark_cpu : TestResult :=
  if CPUTester.bench_primes ≠ [] ∧ CPUTester.bench_primes.getLast? = some 9973
  then .SUCCESS else .FAILURE

/-- Embeds `CPUTester::test_temperature`: negative reading means unsupported,
readings above 100 fail. -/
def CPUTester.test_temperature (e : CPUEnv) : TestResult :=
  if e.tempC < 0 then .NOT_SUPPORTED
  else if e.tempC < 0 ∨ e.tempC > 100 then .FAILURE
  else .SUCCESS

/-- Scratch computation of worker thread `i` in `CPUTester::test_multi_core`:
`sum += j * i` for `j` in `[0, 1000)`.  The realistic thread counts keep the
sum far below `INT_MAX`, so plain natural-number arithmetic is faithful. -/
def CPUTester.thread_sum (i : Nat) : Nat :=
  ((List.range 1000).map (fun j => j * i)).sum

/-- Embeds `CPUTester::test_multi_core` (lines 384-418): spawn
`hardware_concurrency()` workers, then treat any results slot equal to 0 as an
incomplete thread. -/
def CPUTester.test_multi_core (e : CPUEnv) : TestResult :=
  if e.num_threads = 0 then .NOT_SUPPORTED
  else if ((List.range e.num_threads).map CPUTester.thread_sum).any (fun r => r == 0)
  then .FAILURE
  else .SUCCESS

/-- Embeds `CPUTester::test_npu`: cached flag gate, then device node or
`lsmod` driver probe. -/
def CPUTester.test_npu (e : CPUEnv) : TestResult :=
  if !e.npu_available then .NOT_SUPPORTED
  else if e.npuDevNode then .SUCCESS
  else if e.npuLsmod then .SUCCESS
  else .NOT_SUPPORTED

/-- Aggregation of `CPUTester::short_test` (lines 89-126): benchmark and
multi-core are compared against `SUCCESS` only, temperature and NPU exclude
`NOT_SUPPORTED`. -/
def CPUTester.short_test_core (benchmark temperature multicore npu : TestResult) : TestResult :=
  verdict (aggAndL (aggAnd (aggAndL (aggAnd true benchmark) temperature) multicore) npu)

/-- Embeds `CPUTester::short_test`: guard on `cpu_available_`, then the four
sub-checks. -/
def CPUTester.short_test (e : CPUEnv) : TestResult :=
  if !e.cpu_available then .NOT_SUPPORTED
  else
    CPUTester.short_test_core CPUTester.benchmark_cpu (CPUTester.test_temperature e)
      (CPUTester.test_multi_core e) (CPUTester.test_npu e)

/-- Valid (non-negative) temperature samples collected by
`CPUTester::monitor_temperature` at its 1-second polling interval. -/
def CPUTester.valid_temps (e : CPUEnv) (d : Int) : List ℚ :=
  ((List.range (polls d 1)).map e.monitorTemp).filter (fun t => decide (0 ≤ t))

/-- Embeds `CPUTester::monitor_temperature`: no valid sample means
`NOT_SUPPORTED`; otherwise the max/min spread (accumulated from initial
bounds 999 and -999) must stay within 20 degrees. -/
def CPUTester.monitor_temperature (e : CPUEnv) (d : Int) : TestResult :=
  if (CPUTester.valid_temps e d).isEmpty then .NOT_SUPPORTED
  else if (CPUTester.valid_temps e d).foldl max (-999 : ℚ) -
      (CPUTester.valid_temps e d).foldl min (999 : ℚ) ≤ 20 then .SUCCESS
  else .FAILURE

/-- Embeds `CPUTester::monitor_test`: guard on `cpu_available_`, then the
temperature loop. -/
def CPUTester.monitor_test (e : CPUEnv) (d : Int) : TestResult :=
  if !e.cpu_available then .NOT_SUPPORTED else CPUTester.monitor_temperature e d

/-! ### Camera tester (`camera_tester.cpp`) -/

/-- One enumerated V4L2 camera: its device path, the cached `connected` flag,
and the outcomes of `test_camera_sensor` / `test_camera_capture` for it. -/
structure CamRec where
  device_path : String
  connected : Bool
  sensorOk : Bool
  captureOk : Bool
deriving DecidableEq

/-- Environment of `CameraTester`: availability flag, the camera list cached
by the constructor, and the device paths found by `enumerate_cameras()` at
each monitoring poll. -/
structure CamEnv where
  camera_available : Bool
  cameras : List CamRec
  camPathsAt : Nat → List String

/-- Embeds `CameraTester::test_camera_sensor` for one camera. -/
def CameraTester.test_camera_sensor (c : CamRec) : TestResult :=
  if c.sensorOk then .SUCCESS else .FAILURE

/-- Embeds `CameraTester::test_camera_capture` for one camera. -/
def CameraTester.test_camera_capture (c : CamRec) : TestResult :=
  if c.captureOk then .SUCCESS else .FAILURE

/-- Loop of `CameraTester::test_mipi_csi2` over the cached camera list,
carrying the `csi2_found` flag. -/
def CameraTester.csi2_loop : List CamRec → Bool → TestResult
  | [], found => if found then .SUCCESS else .NOT_SUPPORTED
  | c :: rest, found =>
    if c.connected then
      if CameraTester.test_camera_sensor c ≠ .SUCCESS then .FAILURE
      else if CameraTester.test_camera_capture c ≠ .SUCCESS then .FAILURE
      else CameraTester.csi2_loop rest true
    else CameraTester.csi2_loop rest found

/-- Embeds `CameraTester::test_mipi_csi2`. -/
def CameraTester.test_mipi_csi2 (e : CamEnv) : TestResult :=
  CameraTester.csi2_loop e.cameras false

/-- Embeds `CameraTester::test_multi_camera`: more than 2 connected cameras
fail, at least one succeeds, none is unsupported. -/
def CameraTester.test_multi_camera (e : CamEnv) : TestResult :=
  if 2 < e.cameras.countP (fun c => c.connected) then .FAILURE
  else if 0 < e.cameras.countP (fun c => c.connected) then .SUCCESS
  else .NOT_SUPPORTED

/-- Aggregation of `CameraTester::short_test` (lines 52-89): both sub-checks
exclude `NOT_SUPPORTED`. -/
def CameraTester.short_test_core (csi2 multi : TestResult) : TestResult :=
  verdict (aggAndL (aggAndL true csi2) multi)

/-- Embeds `CameraTester::short_test`: guard on `camera_available_`, then the
two sub-checks. -/
def CameraTester.short_test (e : CamEnv) : TestResult :=
  if !e.camera_available then .NOT_SUPPORTED
  else CameraTester.short_test_core (CameraTester.test_mipi_csi2 e)
    (CameraTester.test_multi_camera e)

/-- Embeds `CameraTester::monitor_camera_streaming`: empty cached list means
`NOT_SUPPORTED`; otherwise each 2-second poll must re-enumerate the same
number of devices and still contain every cached device path. -/
def CameraTester.monitor_camera_streaming (e : CamEnv) (d : Int) : TestResult :=
  if e.cameras.isEmpty then .NOT_SUPPORTED
  else if (List.range (polls d 2)).all (fun k =>
      ((e.camPathsAt k).length == e.cameras.length) &&
        e.cameras.all (fun c => (e.camPathsAt k).contains c.device_path))
  then .SUCCESS
  else .FAILURE

/-- Embeds `CameraTester::monitor_test`: guard on `camera_available_`. -/
def CameraTester.monitor_test (e : CamEnv) (d : Int) : TestResult :=
  if !e.camera_available then .NOT_SUPPORTED else CameraTester.monitor_camera_streaming e d

/-! ### GPU tester (`gpu_tester.cpp`) -/

/-- Environment of `GPUTester`: availability flag, the cached OpenGL/Vulkan
support flags and external command outcomes, the cached GPU memory size, and
per-poll temperatures during monitoring. -/
structure GPUEnv where
  gpu_available : Bool
  supports_opengl : Bool
  glxgearsOk : Bool
  supports_vulkan : Bool
  vulkaninfoOk : Bool
  memory_mb : Nat
  monitorTemp : Nat → ℚ

/-- Embeds `GPUTester::test_opengl`. -/
def GPUTester.test_opengl (e : GPUEnv) : TestResult :=
  if !e.supports_opengl then .NOT_SUPPORTED
  else if e.glxgearsOk then .SUCCESS else .FAILURE

/-- Embeds `GPUTester::test_vulkan`. -/
def GPUTester.test_vulkan (e : GPUEnv) : TestResult :=
  if !e.supports_vulkan then .NOT_SUPPORTED
  else if e.vulkaninfoOk then .SUCCESS else .FAILURE

/-- Embeds `GPUTester::test_gpu_memory`: zero cached memory size means
`NOT_SUPPORTED`. -/
def GPUTester.test_gpu_memory (e : GPUEnv) : TestResult :=
  if e.memory_mb = 0 then .NOT_SUPPORTED else .SUCCESS

/-- Aggregation of `GPUTester::short_test` (lines 76-113): OpenGL and Vulkan
exclude `NOT_SUPPORTED`, the memory check is compared against `SUCCESS` only. -/
def GPUTester.short_test_core (opengl vulkan mem : TestResult) : TestResult :=
  verdict (aggAnd (aggAndL (aggAndL true opengl) vulkan) mem)

/-- Embeds `GPUTester::short_test`: guard on `gpu_available_`. -/
def GPUTester.short_test (e : GPUEnv) : TestResult :=
  if !e.gpu_available then .NOT_SUPPORTED
  else GPUTester.short_test_core (GPUTester.test_opengl e) (GPUTester.test_vulkan e)
    (GPUTester.test_gpu_memory e)

/-- Valid (non-negative) temperature samples of `GPUTester::monitor_gpu_temperature`
at its 2-second polling interval. -/
def GPUTester.valid_temps (e : GPUEnv) (d : Int) : List ℚ :=
  ((List.range (polls d 2)).map e.monitorTemp).filter (fun t => decide (0 ≤ t))

/-- Embeds `GPUTester::monitor_gpu_temperature`: no valid sample means
`NOT_SUPPORTED`; otherwise the max/min spread must stay within 15 degrees. -/
def GPUTester.monitor_gpu_temperature (e : GPUEnv) (d : Int) : TestResult :=
  if (GPUTester.valid_temps e d).isEmpty then .NOT_SUPPORTED
  else if (GPUTester.valid_temps e d).foldl max (-999 : ℚ) -
      (GPUTester.valid_temps e d).foldl min (999 : ℚ) ≤ 15 then .SUCCESS
  else .FAILURE

/-- Embeds `GPUTester::monitor_test`: guard on `gpu_available_`. -/
def GPUTester.monitor_test (e : GPUEnv) (d : Int) : TestResult :=
  if !e.gpu_available then .NOT_SUPPORTED else GPUTester.monitor_gpu_temperature e d

/-! ### Memory tester (`memory_tester.cpp`) -/

/-- Unsigned 64-bit subtraction `a - b` as performed on `uint64_t` counters. -/
def sub64 (a b : Nat) : Nat :=
  (((a : Int) - (b : Int)) % ((2 : Int) ^ 64)).toNat

/-- Environment of `MemoryTester`: availability flag, the cached
`MemoryInfo` fields the tests read, the wall-clock time the 100 MB bandwidth
sweep took, and the per-poll `MemAvailable` reading (in MB) during
monitoring (`none` when `/proc/meminfo` is unreadable or lacks the field). -/
structure MemoryEnv where
  memory_available : Bool
  total_ram_mb : Nat
  ecc_supported : Bool
  ecc_enabled : Bool
  ceFileOpen : Bool
  ceParseOk : Bool
  ceCount : Int
  bandwidthMs : Nat
  availMBAt : Nat → Option Nat

/-- Embeds `MemoryTester::test_ram_integrity`: fill a 1 MB buffer with four
patterns (zeros, ones, alternating bits, random data) and verify each
read-back.  The writes and reads act on an in-memory list, so each
verification compares the buffer against exactly the data just written. -/
def MemoryTester.test_ram_integrity : TestResult :=
  if !((List.replicate (1024 * 1024) (0 : Nat)).all (fun v => v == 0)) then .FAILURE
  else if !((List.replicate (1024 * 1024) (255 : Nat)).all (fun v => v == 255)) then .FAILURE
  else if !((List.range (1024 * 1024)).all (fun i =>
      (if i % 2 == 0 then (0xAA : Nat) else 0x55) ==
        (if i % 2 == 0 then (0xAA : Nat) else 0x55))) then .FAILURE
  else .SUCCESS

/-- Embeds `MemoryTester::test_memory_bandwidth`: the sequential write/read
sweep fails when it takes more than 5000 ms. -/
def MemoryTester.test_memory_bandwidth (e : MemoryEnv) : TestResult :=
  if 5000 < e.bandwidthMs then .FAILURE else .SUCCESS

/-- Embeds `MemoryTester::test_ecc`: unsupported gate, enabled gate, then the
`ce_count` file (parse failure or a positive count fails). -/
def MemoryTester.test_ecc (e : MemoryEnv) : TestResult :=
  if !e.ecc_supported then .NOT_SUPPORTED
  else if !e.ecc_enabled then .FAILURE
  else if e.ceFileOpen then
    if !e.ceParseOk then .FAILURE
    else if 0 < e.ceCount then .FAILURE
    else .SUCCESS
  else .SUCCESS

/-- Aggregation of `MemoryTester::short_test` (lines 68-105): integrity and
bandwidth are compared against `SUCCESS` only, ECC excludes `NOT_SUPPORTED`. -/
def MemoryTester.short_test_core (integrity bandwidth ecc : TestResult) : TestResult :=
  verdict (aggAndL (aggAnd (aggAnd true integrity) bandwidth) ecc)

/-- Embeds `MemoryTester::short_test`: guard on `memory_available_`. -/
def MemoryTester.short_test (e : MemoryEnv) : TestResult :=
  if !e.memory_available then .NOT_SUPPORTED
  else MemoryTester.short_test_core MemoryTester.test_ram_integrity
    (MemoryTester.test_memory_bandwidth e) (MemoryTester.test_ecc e)

/-- Per-poll `used_mb = total_ram_mb - available_mb` samples (as `uint64_t`)
collected by `MemoryTester::monitor_memory_usage` at its 1-second interval. -/
def MemoryTester.usage_samples (e : MemoryEnv) (d : Int) : List Nat :=
  (List.range (polls d 1)).filterMap (fun k => (e.availMBAt k).map (sub64 e.total_ram_mb))

/-- Embeds `MemoryTester::monitor_memory_usage`: no sample fails; otherwise
`(max_usage - min_usage) / total_ram_mb` must not exceed 0.1 (the
`total_ram_mb = 0` branch models the IEEE-754 division by zero, whose inf/NaN
result never satisfies the comparison). -/
def MemoryTester.monitor_memory_usage (e : MemoryEnv) (d : Int) : TestResult :=
  if (MemoryTester.usage_samples e d).isEmpty then .FAILURE
  else if e.total_ram_mb = 0 then .FAILURE
  else if (((MemoryTester.usage_samples e d).foldl max 0 -
      (MemoryTester.usage_samples e d).foldl min (2 ^ 64 - 1) : Nat) : ℚ) /
      (e.total_ram_mb : ℚ) ≤ 1 / 10 then .SUCCESS
  else .FAILURE

/-- Embeds `MemoryTester::monitor_test`: guard on `memory_available_`. -/
def MemoryTester.monitor_test (e : MemoryEnv) (d : Int) : TestResult :=
  if !e.memory_available then .NOT_SUPPORTED else MemoryTester.monitor_memory_usage e d

/-! ### Storage tester (`storage_tester.cpp`) -/

/-- Storage device categories recognized by `enumerate_storage_devices`. -/
inductive StorageType
  | EMMC
  | NVME
  | SDCARD
deriving DecidableEq

/-- One enumerated storage device (only the type drives test logic). -/
structure StorageDev where
  type : StorageType
deriving DecidableEq

/-- Environment of `StorageTester`: availability flag, the cached device
list, the outcomes of the `dd` write/read commands used by
`test_storage_performance` (which ignores its device argument), the `lspci`
storage-controller probe, and per-poll `/proc/diskstats` totals
(`none` when the file is unreadable). -/
structure StorageEnv where
  storage_available : Bool
  devices : List StorageDev
  ddWriteOk : Bool
  ddReadOk : Bool
  lspciStorage : Bool
  diskSample : Nat → Option (Nat × Nat)

/-- Embeds `StorageTester::test_storage_performance` (the device path is
unused in the source). -/
def StorageTester.test_storage_performance (e : StorageEnv) : TestResult :=
  if !e.ddWriteOk then .FAILURE
  else if e.ddReadOk then .SUCCESS
  else .FAILURE

/-- Shared loop of `test_emmc` / `test_sdcard` / `test_nvme`: walk the cached
device list, run the performance test on each device of the wanted type, and
report `NOT_SUPPORTED` when none was found. -/
def StorageTester.devtype_loop (e : StorageEnv) (t : StorageType) :
    List StorageDev → Bool → TestResult
  | [], found => if found then .SUCCESS else .NOT_SUPPORTED
  | dv :: rest, found =>
    if dv.type == t then
      if StorageTester.test_storage_performance e ≠ .SUCCESS then .FAILURE
      else StorageTester.devtype_loop e t rest true
    else StorageTester.devtype_loop e t rest found

/-- Embeds `StorageTester::test_emmc`. -/
def StorageTester.test_emmc (e : StorageEnv) : TestResult :=
  StorageTester.devtype_loop e .EMMC e.devices false

/-- Embeds `StorageTester::test_sdcard`. -/
def StorageTester.test_sdcard (e : StorageEnv) : TestResult :=
  StorageTester.devtype_loop e .SDCARD e.devices false

/-- Embeds `StorageTester::test_nvme`. -/
def StorageTester.test_nvme (e : StorageEnv) : TestResult :=
  StorageTester.devtype_loop e .NVME e.devices false

/-- Embeds `StorageTester::test_pcie`: an enumerated NVMe device or an
`lspci` storage-controller line counts as PCIe storage. -/
def StorageTester.test_pcie (e : StorageEnv) : TestResult :=
  if e.devices.any (fun dv => dv.type == StorageType.NVME) then .SUCCESS
  else if e.lspciStorage then .SUCCESS
  else .NOT_SUPPORTED

/-- Embeds `StorageTester::test_m2`, which delegates to `test_pcie`. -/
def StorageTester.test_m2 (e : StorageEnv) : TestResult :=
  StorageTester.test_pcie e

/-- Aggregation of `StorageTester::short_test` (lines 68-106): all five
sub-checks exclude `NOT_SUPPORTED`. -/
def StorageTester.short_test_core (emmc sdcard nvme pcie m2 : TestResult) : TestResult :=
  verdict (aggAndL (aggAndL (aggAndL (aggAndL (aggAndL true emmc) sdcard) nvme) pcie) m2)

/-- Embeds `StorageTester::short_test`: guard on `storage_available_`. -/
def StorageTester.short_test (e : StorageEnv) : TestResult :=
  if !e.storage_available then .NOT_SUPPORTED
  else
    StorageTester.short_test_core (StorageTester.test_emmc e) (StorageTester.test_sdcard e)
      (StorageTester.test_nvme e) (StorageTester.test_pcie e) (StorageTester.test_m2 e)

/-- Samples of total (reads, writes) appended by `monitor_storage_io` on
each 1-second poll where `/proc/diskstats` was readable. -/
def StorageTester.io_samples (e : StorageEnv) (d : Int) : List (Nat × Nat) :=
  (List.range (polls d 1)).filterMap e.diskSample

/-- Embeds `StorageTester::monitor_storage_io` (lines 402-442): fewer than
two samples fail outright; otherwise the drift between the last and first
sample of each counter must stay below 10000 operations. -/
def StorageTester.monitor_storage_io (e : StorageEnv) (d : Int) : TestResult :=
  if (StorageTester.io_samples e d).length < 2 then .FAILURE
  else if sub64 ((StorageTester.io_samples e d).getLastD (0, 0)).1
        (((StorageTester.io_samples e d).headD (0, 0)).1) < 10000 ∧
      sub64 ((StorageTester.io_samples e d).getLastD (0, 0)).2
        (((StorageTester.io_samples e d).headD (0, 0)).2) < 10000 then .SUCCESS
  else .FAILURE

/-- Embeds `StorageTester::monitor_test` (lines 122-136): guard on
`storage_available_`, then the I/O drift loop. -/
def StorageTester.monitor_test (e : StorageEnv) (d : Int) : TestResult :=
  if !e.storage_available then .NOT_SUPPORTED else StorageTester.monitor_storage_io e d

/-! ### Display tester (`display_tester.cpp`) -/

/-- Display interface categories of `enumerate_displays`. -/
inductive DisplayType
  | HDMI
  | MIPI_DSI
  | COMPOSITE
deriving DecidableEq

/-- One enumerated display: interface type, `connected` status, the raw mode
string from sysfs, and the parsed refresh rate. -/
structure DisplayRec where
  type : DisplayType
  connected : Bool
  resolution : List Char
  refresh_rate : Int
deriving DecidableEq

/-- Environment of `DisplayTester`: availability flag, the cached display
list, the `xrandr` 4K-mode probe of `test_4k_hdmi`, and the per-poll
connected-display count during monitoring. -/
structure DisplayEnv where
  display_available : Bool
  displays : List DisplayRec
  xrandr4k : Bool
  countsAt : Nat → Nat

/-- Whitespace recognized by the `std::stoi` front end. -/
def isSpaceChar (c : Char) : Bool :=
  c == ' ' || c == '\t' || c == '\n' || c == '\r' || c == '\x0b' || c == '\x0c'

/-- Value of a non-empty decimal digit string. -/
def digitsToInt (ds : List Char) : Int :=
  ds.foldl (fun acc c => acc * 10 + ((c.toNat : Int) - 48)) 0

/-- Models `std::stoi`: skip leading whitespace, optional sign, then a
non-empty digit prefix; `none` models the `std::invalid_argument` throw. -/
def stoiOpt (l : List Char) : Option Int :=
  match l.dropWhile isSpaceChar with
  | '-' :: rest =>
    if (rest.takeWhile Char.isDigit).isEmpty then none
    else some (-(digitsToInt (rest.takeWhile Char.isDigit)))
  | '+' :: rest =>
    if (rest.takeWhile Char.isDigit).isEmpty then none
    else some (digitsToInt (rest.takeWhile Char.isDigit))
  | rest =>
    if (rest.takeWhile Char.isDigit).isEmpty then none
    else some (digitsToInt (rest.takeWhile Char.isDigit))

/-- Height substring of `test_display_resolution`:
`resolution.substr(x_pos + 1, at_pos - x_pos - 1)` when an at-sign exists
(with `size_t` wrap-around taking the rest of the string when the at-sign
precedes the x), the whole tail otherwise. -/
def DisplayTester.height_chars (res : List Char) (x_pos : Nat) : List Char :=
  match res.findIdx? (fun c => c == '@') with
  | some at_pos =>
    if at_pos < x_pos + 1 then res.drop (x_pos + 1)
    else (res.drop (x_pos + 1)).take (at_pos - x_pos - 1)
  | none => res.drop (x_pos + 1)

/-- Embeds `DisplayTester::test_display_resolution`: disconnected displays
are unsupported; the mode string must contain an `x`, both sides must parse
as integers, and the parsed width/height must fall in [640, 7680] x [480, 4320]. -/
def DisplayTester.test_display_resolution (dp : DisplayRec) : TestResult :=
  if !dp.connected then .NOT_SUPPORTED
  else if dp.resolution.isEmpty then .FAILURE
  else
    match dp.resolution.findIdx? (fun c => c == 'x') with
    | none => .FAILURE
    | some x_pos =>
      match stoiOpt (dp.resolution.take x_pos),
          stoiOpt (DisplayTester.height_chars dp.resolution x_pos) with
      | some w, some h =>
        if w < 640 ∨ w > 7680 ∨ h < 480 ∨ h > 4320 then .FAILURE else .SUCCESS
      | _, _ => .FAILURE

/-- Shared loop of `test_hdmi` / `test_mipi_dsi`: walk the cached displays of
the wanted type, resolution-check the connected ones, carry the found flag. -/
def DisplayTester.type_loop (t : DisplayType) : List DisplayRec → Bool → TestResult
  | [], found => if found then .SUCCESS else .NOT_SUPPORTED
  | dp :: rest, found =>
    if dp.type == t then
      if dp.connected ∧ DisplayTester.test_display_resolution dp ≠ .SUCCESS then .FAILURE
      else DisplayTester.type_loop t rest true
    else DisplayTester.type_loop t rest found

/-- Embeds `DisplayTester::test_hdmi`. -/
def DisplayTester.test_hdmi (e : DisplayEnv) : TestResult :=
  DisplayTester.type_loop .HDMI e.displays false

/-- Embeds `DisplayTester::test_mipi_dsi`. -/
def DisplayTester.test_mipi_dsi (e : DisplayEnv) : TestResult :=
  DisplayTester.type_loop .MIPI_DSI e.displays false

/-- Embeds `DisplayTester::test_4k_hdmi`: a connected HDMI display whose mode
string contains a 4K resolution at 60 Hz or more succeeds, else the `xrandr`
mode-list probe decides between `SUCCESS` and `NOT_SUPPORTED`. -/
def DisplayTester.test_4k_hdmi (e : DisplayEnv) : TestResult :=
  if e.displays.any (fun dp =>
      dp.type == DisplayType.HDMI && dp.connected &&
        (decide (List.IsInfix ("3840x2160".toList) dp.resolution) ||
          decide (List.IsInfix ("4096x2160".toList) dp.resolution)) &&
        decide (60 ≤ dp.refresh_rate)) then .SUCCESS
  else if e.xrandr4k then .SUCCESS
  else .NOT_SUPPORTED

/-- Aggregation of `DisplayTester::short_test` (lines 45-77): all three
sub-checks exclude `NOT_SUPPORTED`. -/
def DisplayTester.short_test_core (hdmi dsi k4 : TestResult) : TestResult :=
  verdict (aggAndL (aggAndL (aggAndL true hdmi) dsi) k4)

/-- Embeds `DisplayTester::short_test`: guard on `display_available_`. -/
def DisplayTester.short_test (e : DisplayEnv) : TestResult :=
  if !e.display_available then .NOT_SUPPORTED
  else DisplayTester.short_test_core (DisplayTester.test_hdmi e)
    (DisplayTester.test_mipi_dsi e) (DisplayTester.test_4k_hdmi e)

/-- Embeds `DisplayTester::monitor_display_connection`: every 2-second poll
appends the connected-display count; no sample fails, and all samples must
equal the first. -/
def DisplayTester.monitor_display_connection (e : DisplayEnv) (d : Int) : TestResult :=
  if (List.range (polls d 2)).isEmpty then .FAILURE
  else if (List.range (polls d 2)).all (fun k => e.countsAt k == e.countsAt 0) then .SUCCESS
  else .FAILURE

/-- Embeds `DisplayTester::monitor_test`: guard on `display_available_`. -/
def DisplayTester.monitor_test (e : DisplayEnv) (d : Int) : TestResult :=
  if !e.display_available then .NOT_SUPPORTED else DisplayTester.monitor_display_connection e d

/-! ### USB tester (`usb_tester.cpp`) -/

/-- One detected USB host controller. -/
structure USBController where
  ehci : Bool
  ohci : Bool
  xhci : Bool
  powerPath : Bool
deriving DecidableEq

/-- One enumerated USB device (fields read by the tests). -/
structure USBDev where
  device_path : String
  connected : Bool
  path_exists : Bool
  high_speed : Bool
  super_speed : Bool
  max_power_ma : Nat
deriving DecidableEq

/-- Environment of `USBTester`: availability flag, the cached controller and
device lists, and the device paths found by `enumerate_usb_devices()` at each
monitoring step (index 0 is the fresh enumeration taken when the monitor
starts). -/
structure USBEnv where
  usb_available : Bool
  controllers : List USBController
  devices : List USBDev
  usbPathsAt : Nat → List String

/-- Embeds `USBTester::test_usb_controllers`: empty list fails, otherwise at
least one EHCI/OHCI/XHCI controller must be present. -/
def USBTester.test_usb_controllers (e : USBEnv) : TestResult :=
  if e.controllers.isEmpty then .FAILURE
  else if e.controllers.any (fun c => c.ehci || c.ohci || c.xhci) then .SUCCESS
  else .FAILURE

/-- Embeds the inline connected-device loop of `USBTester::short_test`
(lines 101-110), which applies `test_usb_device` to every connected device. -/
def USBTester.devices_check (e : USBEnv) : TestResult :=
  if e.devices.any (fun dv => dv.connected && !dv.path_exists) then .FAILURE else .SUCCESS

/-- Embeds `USBTester::test_usb_transfer`: requires some connected
high-speed or super-speed device. -/
def USBTester.test_usb_transfer (e : USBEnv) : TestResult :=
  if e.devices.any (fun dv => dv.connected && (dv.high_speed || dv.super_speed))
  then .SUCCESS else .NOT_SUPPORTED

/-- Embeds `USBTester::test_usb_power`: a controller power directory or a
connected device with a positive `bMaxPower` suffices. -/
def USBTester.test_usb_power (e : USBEnv) : TestResult :=
  if e.controllers.any (fun c => c.powerPath) ||
      e.devices.any (fun dv => dv.connected && decide (0 < dv.max_power_ma))
  then .SUCCESS else .FAILURE

/-- Aggregation of `USBTester::short_test` (lines 93-135): the transfer check
excludes `NOT_SUPPORTED`, the other three are compared against `SUCCESS` only. -/
def USBTester.short_test_core (controllers devices transfer power : TestResult) : TestResult :=
  verdict (aggAnd (aggAndL (aggAnd (aggAnd true controllers) devices) transfer) power)

/-- Embeds `USBTester::short_test`: guard on `usb_available_`. -/
def USBTester.short_test (e : USBEnv) : TestResult :=
  if !e.usb_available then .NOT_SUPPORTED
  else USBTester.short_test_core (USBTester.test_usb_controllers e) (USBTester.devices_check e)
    (USBTester.test_usb_transfer e) (USBTester.test_usb_power e)

/-- Embeds `USBTester::monitor_usb_devices`: each 2-second poll re-enumerates
and compares against the enumeration taken at monitor start (index 0). -/
def USBTester.monitor_usb_devices (e : USBEnv) (d : Int) : TestResult :=
  if (List.range (polls d 2)).all (fun k =>
      ((e.usbPathsAt (k + 1)).length == (e.usbPathsAt 0).length) &&
        (e.usbPathsAt 0).all (fun p => (e.usbPathsAt (k + 1)).contains p))
  then .SUCCESS else .FAILURE

/-- Embeds `USBTester::monitor_test`: guard on `usb_available_`. -/
def USBTester.monitor_test (e : USBEnv) (d : Int) : TestResult :=
  if !e.usb_available then .NOT_SUPPORTED else USBTester.monitor_usb_devices e d

/-! ### Networking tester (`networking_tester.cpp`) -/

/-- One enumerated network interface (only `is_up` drives test logic). -/
structure NetIface where
  is_up : Bool
deriving DecidableEq

/-- Environment of `NetworkingTester`: availability flag, the cached
interface list, the `ping`/DNS outcomes during `short_test`, and the per-check
`ping` outcomes during monitoring (the environment is a deterministic
snapshot, so the two pings of `8.8.8.8` within one `short_test` agree). -/
structure NetEnv where
  networking_available : Bool
  ifaces : List NetIface
  pingShort : String → Bool
  dnsOk : String → Bool
  pingMonitor : Nat → String → Bool

/-- Reference hosts of `NetworkingTester::test_connectivity`. -/
def NetworkingTester.test_hosts : List String :=
  ["8.8.8.8", "1.1.1.1", "208.67.222.222"]

/-- Reference domains of `NetworkingTester::test_dns_resolution`. -/
def NetworkingTester.test_domains : List String :=
  ["google.com", "github.com", "stackoverflow.com"]

/-- Embeds `NetworkingTester::test_connectivity` (lines 161-174) for an
arbitrary per-host ping outcome: at least 2 of the 3 reference hosts must be
reachable. -/
def NetworkingTester.test_connectivity (ping : String → Bool) : TestResult :=
  if 2 ≤ NetworkingTester.test_hosts.countP ping then .SUCCESS else .FAILURE

/-- Embeds the inline active-interface check of `NetworkingTester::short_test`
(lines 93-100). -/
def NetworkingTester.interfaces_check (e : NetEnv) : TestResult :=
  if e.ifaces.any (fun i => i.is_up) then .SUCCESS else .FAILURE

/-- Embeds `NetworkingTester::test_dns_resolution`: at least 2 of the 3
reference domains must resolve. -/
def NetworkingTester.test_dns_resolution (e : NetEnv) : TestResult :=
  if 2 ≤ NetworkingTester.test_domains.countP e.dnsOk then .SUCCESS else .FAILURE

/-- Embeds `NetworkingTester::test_latency` (`ping_host("8.8.8.8")`). -/
def NetworkingTester.test_latency (e : NetEnv) : TestResult :=
  if e.pingShort ("8.8.8.8") then .SUCCESS else .FAILURE

/-- Aggregation of `NetworkingTester::short_test` (lines 62-136): the
connectivity and latency checks exclude `NOT_SUPPORTED`, the interface and
DNS checks are compared against `SUCCESS` only. -/
def NetworkingTester.short_test_core (ifaces conn dns latency : TestResult) : TestResult :=
  verdict (aggAndL (aggAnd (aggAndL (aggAnd true ifaces) conn) dns) latency)

/-- Embeds `NetworkingTester::short_test`: guard on `networking_available_`. -/
def NetworkingTester.short_test (e : NetEnv) : TestResult :=
  if !e.networking_available then .NOT_SUPPORTED
  else NetworkingTester.short_test_core (NetworkingTester.interfaces_check e)
    (NetworkingTester.test_connectivity e.pingShort) (NetworkingTester.test_dns_resolution e)
    (NetworkingTester.test_latency e)

/-- Loop of `NetworkingTester::monitor_connectivity` (lines 201-222): one
connectivity check per 10-second step; every failed check increments
`failure_count`, which is never reset, and a count above 3 stops the loop
with an unstable verdict. Arguments: current check index, remaining checks,
accumulated failure count. -/
def NetworkingTester.monitor_loop (e : NetEnv) : Nat → Nat → Nat → Bool
  | _, 0, _ => true
  | k, rem + 1, f =>
    if NetworkingTester.test_connectivity (e.pingMonitor k) ≠ .SUCCESS then
      if 3 < f + 1 then false else NetworkingTester.monitor_loop e (k + 1) rem (f + 1)
    else NetworkingTester.monitor_loop e (k + 1) rem f

/-- Embeds `NetworkingTester::monitor_connectivity`. -/
def NetworkingTester.monitor_connectivity (e : NetEnv) (d : Int) : TestResult :=
  if NetworkingTester.monitor_loop e 0 (polls d 10) 0 then .SUCCESS else .FAILURE

/-- Embeds `NetworkingTester::monitor_test`: guard on `networking_available_`. -/
def NetworkingTester.monitor_test (e : NetEnv) (d : Int) : TestResult :=
  if !e.networking_available then .NOT_SUPPORTED else NetworkingTester.monitor_connectivity e d

/-! ### Power tester (`power_tester.cpp`) -/

/-- Detected power source categories. -/
inductive PowerSource
  | BATTERY
  | AC_ADAPTER
  | USB_C
  | POE
  | UNKNOWN
deriving DecidableEq

/-- Fields of `PowerInfo` read by the tests and the monitor. -/
structure PowerRec where
  source : PowerSource
  battery_present : Bool
  battery_percentage : Int
  voltage_v : ℚ
  current_ma : ℚ
  power_w : ℚ
deriving DecidableEq

/-- Environment of `PowerTester`: availability flag, the cached `PowerInfo`,
the `upower` fallback probe, the `/sys/class/power_supply`,
`/sys/power/state` and cpufreq existence probes, and the `get_power_info()`
snapshot at each monitoring step (index 0 is the snapshot taken when the
monitor starts). -/
structure PowerEnv where
  power_available : Bool
  info : PowerRec
  upowerFound : Bool
  powerSupplyDir : Bool
  suspendState : Bool
  cpufreqDir : Bool
  infoAt : Nat → PowerRec

/-- Embeds `PowerTester::test_power_source`: a known cached source succeeds,
else the `upower` enumeration decides. -/
def PowerTester.test_power_source (e : PowerEnv) : TestResult :=
  if e.info.source ≠ PowerSource.UNKNOWN then .SUCCESS
  else if e.upowerFound then .SUCCESS
  else .FAILURE

/-- Embeds `PowerTester::test_power_monitoring`: a positive cached voltage,
current or power reading succeeds; otherwise the presence of
`/sys/class/power_supply` downgrades to `NOT_SUPPORTED`. -/
def PowerTester.test_power_monitoring (e : PowerEnv) : TestResult :=
  if 0 < e.info.voltage_v ∨ 0 < e.info.current_ma ∨ 0 < e.info.power_w then .SUCCESS
  else if e.powerSupplyDir then .NOT_SUPPORTED
  else .FAILURE

/-- Embeds `PowerTester::test_battery`: no battery is unsupported, a
percentage in [0, 100] succeeds. -/
def PowerTester.test_battery (e : PowerEnv) : TestResult :=
  if !e.info.battery_present then .NOT_SUPPORTED
  else if 0 ≤ e.info.battery_percentage ∧ e.info.battery_percentage ≤ 100 then .SUCCESS
  else .FAILURE

/-- Embeds `PowerTester::test_power_management`: suspend support or CPU
frequency scaling suffices. -/
def PowerTester.test_power_management (e : PowerEnv) : TestResult :=
  if e.suspendState || e.cpufreqDir then .SUCCESS else .FAILURE

/-- Aggregation of `PowerTester::short_test` (lines 60-143): monitoring and
battery exclude `NOT_SUPPORTED`, source and power management are compared
against `SUCCESS` only. -/
def PowerTester.short_test_core (source monitoring battery pm : TestResult) : TestResult :=
  verdict (aggAnd (aggAndL (aggAndL (aggAnd true source) monitoring) battery) pm)

/-- Embeds `PowerTester::short_test`: guard on `power_available_`. -/
def PowerTester.short_test (e : PowerEnv) : TestResult :=
  if !e.power_available then .NOT_SUPPORTED
  else PowerTester.short_test_core (PowerTester.test_power_source e)
    (PowerTester.test_power_monitoring e) (PowerTester.test_battery e)
    (PowerTester.test_power_management e)

/-- Loop of `PowerTester::monitor_power_consumption` (lines 284-312): each
5-second step re-reads the power info; a changed source replaces the
baseline, and a battery drain of more than 50 percentage points against the
baseline is unstable. Arguments: current step index, remaining steps,
baseline info. -/
def PowerTester.monitor_loop (e : PowerEnv) : Nat → Nat → PowerRec → Bool
  | _, 0, _ => true
  | k, rem + 1, init =>
    if (e.infoAt k).battery_present ∧
        (if (e.infoAt k).source ≠ init.source then e.infoAt k else init).battery_present ∧
        50 < (if (e.infoAt k).source ≠ init.source then e.infoAt k
          else init).battery_percentage - (e.infoAt k).battery_percentage
    then false
    else PowerTester.monitor_loop e (k + 1) rem
      (if (e.infoAt k).source ≠ init.source then e.infoAt k else init)

/-- Embeds `PowerTester::monitor_power_consumption`. -/
def PowerTester.monitor_power_consumption (e : PowerEnv) (d : Int) : TestResult :=
  if PowerTester.monitor_loop e 1 (polls d 5) (e.infoAt 0) then .SUCCESS else .FAILURE

/-- Embeds `PowerTester::monitor_test`: guard on `power_available_`. -/
def PowerTester.monitor_test (e : PowerEnv) (d : Int) : TestResult :=
  if !e.power_available then .NOT_SUPPORTED else PowerTester.monitor_power_consumption e d

/-! ### Form-factor tester (`form_factor_tester.cpp`) -/

/-- Availability flags of the seven interfaces enumerated by
`FormFactorTester::enumerate_interfaces` (GPIO, I2C, SPI, UART, USB,
Ethernet, PCIe; the function always pushes exactly these seven entries). -/
structure FFFlags where
  gpio : Bool
  i2c : Bool
  spi : Bool
  uart : Bool
  usb : Bool
  eth : Bool
  pcie : Bool
deriving DecidableEq

/-- Embeds `FormFactorTester::enumerate_interfaces` as the list of the seven
per-interface availability flags. -/
def FormFactorTester.enumerate_interfaces (f : FFFlags) : List Bool :=
  [f.gpio, f.i2c, f.spi, f.uart, f.usb, f.eth, f.pcie]

/-- Environment of `FormFactorTester`: availability flag, the cached board
identification strings, the `vcgencmd` fallback probe, the interface flags
observed during `short_test`, the per-pin outcome of `test_gpio_pin`, the
board temperature during `short_test`, and per-poll temperatures and
interface flags during monitoring (index 0 of `tempAt` is the baseline
reading taken when the monitor starts). -/
structure FFEnv where
  form_factor_available : Bool
  module_type : String
  revision : String
  vcgencmdOk : Bool
  flags : FFFlags
  pinResult : Nat → TestResult
  boardTemp : ℚ
  tempAt : Nat → ℚ
  flagsAt : Nat → FFFlags

/-- Embeds `FormFactorTester::test_board_info`: a non-empty model or revision
string succeeds, else the `vcgencmd` probe decides. -/
def FormFactorTester.test_board_info (e : FFEnv) : TestResult :=
  if e.module_type ≠ "" ∨ e.revision ≠ "" then .SUCCESS
  else if e.vcgencmdOk then .SUCCESS
  else .FAILURE

/-- Loop of `FormFactorTester::test_gpio_pins` over pins 0..9, carrying the
`any_pin_tested` flag: a non-`NOT_SUPPORTED` pin result marks the pin as
tested and any non-`SUCCESS` among those fails. -/
def FormFactorTester.pins_loop (e : FFEnv) : List Nat → Bool → TestResult
  | [], tested => if tested then .SUCCESS else .NOT_SUPPORTED
  | p :: rest, tested =>
    if e.pinResult p ≠ .NOT_SUPPORTED then
      if e.pinResult p ≠ .SUCCESS then .FAILURE
      else FormFactorTester.pins_loop e rest true
    else FormFactorTester.pins_loop e rest tested

/-- Embeds `FormFactorTester::test_gpio_pins`: gate on `/sys/class/gpio`,
then the pin loop. -/
def FormFactorTester.test_gpio_pins (e : FFEnv) : TestResult :=
  if !e.flags.gpio then .NOT_SUPPORTED
  else FormFactorTester.pins_loop e (List.range 10) false

/-- Embeds `FormFactorTester::test_interfaces`: the freshly enumerated list
is never empty (it always has seven entries), and at least one interface must
be available. -/
def FormFactorTester.test_interfaces (e : FFEnv) : TestResult :=
  if (FormFactorTester.enumerate_interfaces e.flags).isEmpty then .FAILURE
  else if (FormFactorTester.enumerate_interfaces e.flags).any (fun b => b) then .SUCCESS
  else .FAILURE

/-- Embeds `FormFactorTester::test_temperature`: a board temperature strictly
between 0 and 100 succeeds, anything else is unsupported. -/
def FormFactorTester.test_temperature (e : FFEnv) : TestResult :=
  if 0 < e.boardTemp ∧ e.boardTemp < 100 then .SUCCESS else .NOT_SUPPORTED

/-- Aggregation of `FormFactorTester::short_test` (lines 65-101): GPIO pins
and temperature exclude `NOT_SUPPORTED`, board info and interfaces are
compared against `SUCCESS` only. -/
def FormFactorTester.short_test_core (board gpio ifaces temp : TestResult) : TestResult :=
  verdict (aggAndL (aggAnd (aggAndL (aggAnd true board) gpio) ifaces) temp)

/-- Embeds `FormFactorTester::short_test`: guard on `form_factor_available_`. -/
def FormFactorTester.short_test (e : FFEnv) : TestResult :=
  if !e.form_factor_available then .NOT_SUPPORTED
  else FormFactorTester.short_test_core (FormFactorTester.test_board_info e)
    (FormFactorTester.test_gpio_pins e) (FormFactorTester.test_interfaces e)
    (FormFactorTester.test_temperature e)

/-- Embeds `FormFactorTester::monitor_interfaces` (lines 232-256): each
5-second step compares the current board temperature against the baseline
(more than 20 degrees of drift is unstable) and the freshly enumerated
interface count against the cached one (both are always seven, so only the
temperature can trip). -/
def FormFactorTester.monitor_interfaces (e : FFEnv) (d : Int) : TestResult :=
  if (List.range (polls d 5)).all (fun k =>
      decide (|e.tempAt (k + 1) - e.tempAt 0| ≤ 20) &&
        ((FormFactorTester.enumerate_interfaces (e.flagsAt (k + 1))).length ==
          (FormFactorTester.enumerate_interfaces e.flags).length))
  then .SUCCESS else .FAILURE

/-- Embeds `FormFactorTester::monitor_test`: guard on `form_factor_available_`. -/
def FormFactorTester.monitor_test (e : FFEnv) (d : Int) : TestResult :=
  if !e.form_factor_available then .NOT_SUPPORTED else FormFactorTester.monitor_interfaces e d

/-! ### The eleven testers as one indexed family -/

/-- The eleven peripherals registered in `tester_registry`. -/
inductive Peripheral
  | cpu
  | gpio
  | camera
  | gpu
  | memory
  | storage
  | display
  | usb
  | networking
  | power
  | form_factor
deriving DecidableEq, Repr, Fintype

/-- Environment type of each tester. -/
def EnvOf : Peripheral → Type
  | .cpu => CPUEnv
  | .gpio => GPIOEnv
  | .camera => CamEnv
  | .gpu => GPUEnv
  | .memory => MemoryEnv
  | .storage => StorageEnv
  | .display => DisplayEnv
  | .usb => USBEnv
  | .networking => NetEnv
  | .power => PowerEnv
  | .form_factor => FFEnv

/-- The `is_available()` method of each tester, which returns the
availability flag cached by the constructor. -/
def availOf : (p : Peripheral) → EnvOf p → Bool
  | .cpu, e => e.cpu_available
  | .gpio, e => e.gpio_available
  | .camera, e => e.camera_available
  | .gpu, e => e.gpu_available
  | .memory, e => e.memory_available
  | .storage, e => e.storage_available
  | .display, e => e.display_available
  | .usb, e => e.usb_available
  | .networking, e => e.networking_available
  | .power, e => e.power_available
  | .form_factor, e => e.form_factor_available

/-- The `short_test()` report result of each tester. -/
def shortTestOf : (p : Peripheral) → EnvOf p → TestResult
  | .cpu, e => CPUTester.short_test e
  | .gpio, e => GPIOTester.short_test e
  | .camera, e => CameraTester.short_test e
  | .gpu, e => GPUTester.short_test e
  | .memory, e => MemoryTester.short_test e
  | .storage, e => StorageTester.short_test e
  | .display, e => DisplayTester.short_test e
  | .usb, e => USBTester.short_test e
  | .networking, e => NetworkingTester.short_test e
  | .power, e => PowerTester.short_test e
  | .form_factor, e => FormFactorTester.short_test e

/-- The `monitor_test(duration)` report result of each tester (duration in
seconds). -/
def monitorTestOf : (p : Peripheral) → EnvOf p → Int → TestResult
  | .cpu, e, d => CPUTester.monitor_test e d
  | .gpio, e, d => GPIOTester.monitor_test e d
  | .camera, e, d => CameraTester.monitor_test e d
  | .gpu, e, d => GPUTester.monitor_test e d
  | .memory, e, d => MemoryTester.monitor_test e d
  | .storage, e, d => StorageTester.monitor_test e d
  | .display, e, d => DisplayTester.monitor_test e d
  | .usb, e, d => USBTester.monitor_test e d
  | .networking, e, d => NetworkingTester.monitor_test e d
  | .power, e, d => PowerTester.monitor_test e d
  | .form_factor, e, d => FormFactorTester.monitor_test e d

/-- A sub-check result that does not count against the aggregate under the
spec reading: `SUCCESS`, or `NOT_SUPPORTED` where the implementation excludes
it. -/
def lenientOK (r : TestResult) : Prop :=
  r = TestResult.SUCCESS ∨ r = TestResult.NOT_SUPPORTED

/-- Per-tester success condition of `short_test` as actually implemented:
each sub-check position is either compared against `SUCCESS` only, or
additionally excuses `NOT_SUPPORTED`, exactly as in the per-tester
aggregation code. -/
def shortChecksOk : (p : Peripheral) → EnvOf p → Prop
  | .cpu, e =>
    CPUTester.benchmark_cpu = TestResult.SUCCESS ∧ lenientOK (CPUTester.test_temperature e) ∧
      CPUTester.test_multi_core e = TestResult.SUCCESS ∧ lenientOK (CPUTester.test_npu e)
  | .gpio, e =>
    GPIOTester.test_digital_io e = TestResult.SUCCESS ∧
      GPIOTester.test_pwm e = TestResult.SUCCESS ∧
      GPIOTester.test_i2c e = TestResult.SUCCESS ∧
      GPIOTester.test_spi e = TestResult.SUCCESS ∧
      GPIOTester.test_uart e = TestResult.SUCCESS
  | .camera, e =>
    lenientOK (CameraTester.test_mipi_csi2 e) ∧ lenientOK (CameraTester.test_multi_camera e)
  | .gpu, e =>
    lenientOK (GPUTester.test_opengl e) ∧ lenientOK (GPUTester.test_vulkan e) ∧
      GPUTester.test_gpu_memory e = TestResult.SUCCESS
  | .memory, e =>
    MemoryTester.test_ram_integrity = TestResult.SUCCESS ∧
      MemoryTester.test_memory_bandwidth e = TestResult.SUCCESS ∧
      lenientOK (MemoryTester.test_ecc e)
  | .storage, e =>
    lenientOK (StorageTester.test_emmc e) ∧ lenientOK (StorageTester.test_sdcard e) ∧
      lenientOK (StorageTester.test_nvme e) ∧ lenientOK (StorageTester.test_pcie e) ∧
      lenientOK (StorageTester.test_m2 e)
  | .display, e =>
    lenientOK (DisplayTester.test_hdmi e) ∧ lenientOK (DisplayTester.test_mipi_dsi e) ∧
      lenientOK (DisplayTester.test_4k_hdmi e)
  | .usb, e =>
    USBTester.test_usb_controllers e = TestResult.SUCCESS ∧
      USBTester.devices_check e = TestResult.SUCCESS ∧
      lenientOK (USBTester.test_usb_transfer e) ∧
      USBTester.test_usb_power e = TestResult.SUCCESS
  | .networking, e =>
    NetworkingTester.interfaces_check e = TestResult.SUCCESS ∧
      lenientOK (NetworkingTester.test_connectivity e.pingShort) ∧
      NetworkingTester.test_dns_resolution e = TestResult.SUCCESS ∧
      lenientOK (NetworkingTester.test_latency e)
  | .power, e =>
    PowerTester.test_power_source e = TestResult.SUCCESS ∧
      lenientOK (PowerTester.test_power_monitoring e) ∧
      lenientOK (PowerTester.test_battery e) ∧
      PowerTester.test_power_management e = TestResult.SUCCESS
  | .form_factor, e =>
    FormFactorTester.test_board_info e = TestResult.SUCCESS ∧
      lenientOK (FormFactorTester.test_gpio_pins e) ∧
      FormFactorTester.test_interfaces e = TestResult.SUCCESS ∧
      lenientOK (FormFactorTester.test_temperature e)

/-! ### Registry, runner and CLI surface (`app/nxp_imx93_hw_vv_tool.cpp`) -/

/-- Keys of `tester_registry` in `std::map` iteration (lexicographic) order. -/
def registryNames : List String :=
  ["camera", "cpu", "display", "form_factor", "gpio", "gpu", "memory", "networking",
    "power", "storage", "usb"]

/-- Abstract behaviour of the instantiated testers as seen by the runner:
availability per name and the report result of a short or monitoring run. -/
structure RunnerEnv where
  avail : String → Bool
  shortResult : String → TestResult
  monitorResult : String → Int → TestResult

/-- The `reports` vector and `failed_tests` counter accumulated by `main`. -/
structure RunnerState where
  reports : List TestResult
  failed_tests : Nat
deriving DecidableEq, Repr

/-- Embeds the `run_test` lambda of `main` (lines 113-144): unknown names
and unavailable peripherals leave the state unchanged; otherwise the chosen
test runs, its report is appended, and a non-`SUCCESS` result increments the
failure counter. -/
def run_test (env : RunnerEnv) (is_monitor : Bool) (duration : Int) (st : RunnerState)
    (name : String) : RunnerState :=
  if !(registryNames.contains name) then st
  else if !(env.avail name) then st
  else
    { reports := st.reports ++
        [if is_monitor then env.monitorResult name duration else env.shortResult name],
      failed_tests := st.failed_tests +
        (if (if is_monitor then env.monitorResult name duration else env.shortResult name) ≠
            TestResult.SUCCESS then 1 else 0) }

/-- Runs `run_test` over a list of requested peripheral names. -/
def run_tests (env : RunnerEnv) (is_monitor : Bool) (duration : Int)
    (names : List String) : RunnerState :=
  names.foldl (run_test env is_monitor duration) ⟨[], 0⟩

/-- The `summary` object of the emitted JSON (lines 192-196):
`(total, failed, passed) = (reports.size(), failed_tests, reports.size() - failed_tests)`. -/
def json_summary (st : RunnerState) : Nat × Nat × Nat :=
  (st.reports.length, st.failed_tests, st.reports.length - st.failed_tests)

/-- Parsed CLI subcommand of the canonical (subcommand-based) entry point. -/
inductive Command
  | list
  | test (all : Bool) (names : List String)
  | monitor (all : Bool) (duration : Int) (names : List String)
  | noCommand
deriving DecidableEq

/-- Exit code of the tail of `main` (line 206):
`failed_tests == 0 ? 0 : 1`. -/
def finishExit (st : RunnerState) : Nat :=
  if st.failed_tests = 0 then 0 else 1

/-- Embeds the command dispatch of `main` (lines 104-206): `list` returns 0
immediately; `test`/`monitor` run all registered names with `--all`, the
given names when some were given, and print a usage error and return 1
otherwise; a missing subcommand prints help and returns 1; every other path
exits with `failed_tests == 0 ? 0 : 1`. Returns the exit code and the final
runner state. -/
def mainRun (env : RunnerEnv) (cmd : Command) : Nat × RunnerState :=
  match cmd with
  | .list => (0, ⟨[], 0⟩)
  | .test all names =>
    if all then
      (finishExit (run_tests env false 0 registryNames), run_tests env false 0 registryNames)
    else if !names.isEmpty then
      (finishExit (run_tests env false 0 names), run_tests env false 0 names)
    else (1, ⟨[], 0⟩)
  | .monitor all duration names =>
    if all then
      (finishExit (run_tests env true duration registryNames),
        run_tests env true duration registryNames)
    else if !names.isEmpty then
      (finishExit (run_tests env true duration names), run_tests env true duration names)
    else (1, ⟨[], 0⟩)
  | .noCommand => (1, ⟨[], 0⟩)

/-- A `test` or `monitor` invocation that actually selects a test set
(`--all` or at least one peripheral name); `list` and a missing subcommand
select nothing. -/
def selectsTests : Command → Prop
  | .list => False
  | .test all names => all = true ∨ names ≠ []
  | .monitor all _ names => all = true ∨ names ≠ []
  | .noCommand => False

/-! ### JSON string escaping (`json_utils.h`) -/

/-- Embeds `JsonWriter::escape_string` (lines 46-83) on one input byte.
In the control-byte branch the C++ streams
`"\\u" << std::hex << std::setw(4) << std::setfill('0') << static_cast<unsigned char>(c)`:
inserting an `unsigned char` selects the character inserter, for which
`std::hex` is inert and the width-4 zero fill pads the single raw byte, so
the emitted bytes are backslash, `u`, three `0` characters and the raw
control byte itself. -/
def JsonWriter.escape_byte (c : Nat) : List Nat :=
  if c = 0x22 then [0x5C, 0x22]
  else if c = 0x5C then [0x5C, 0x5C]
  else if c = 0x08 then [0x5C, 0x62]
  else if c = 0x0C then [0x5C, 0x66]
  else if c = 0x0A then [0x5C, 0x6E]
  else if c = 0x0D then [0x5C, 0x72]
  else if c = 0x09 then [0x5C, 0x74]
  else if c ≤ 0x1F then [0x5C, 0x75, 0x30, 0x30, 0x30, c]
  else [c]

/-- Embeds `JsonWriter::escape_string` on a byte string: the escaped bytes
surrounded by double quotes. -/
def JsonWriter.escape_string (s : List Nat) : List Nat :=
  [0x22] ++ s.flatMap JsonWriter.escape_byte ++ [0x22]

/-- Lowercase hexadecimal digit, as `std::hex` would have produced. -/
def hexDigit (n : Nat) : Nat :=
  if n < 10 then 0x30 + n else 0x57 + n

/-- The escaping of one byte required by the claim (RFC 8259): the same
named escapes, and `\u00XX` with the two hex digits of the byte for the
remaining control bytes below 0x20. -/
def rfc_escape_byte (c : Nat) : List Nat :=
  if c = 0x22 then [0x5C, 0x22]
  else if c = 0x5C then [0x5C, 0x5C]
  else if c = 0x08 then [0x5C, 0x62]
  else if c = 0x0C then [0x5C, 0x66]
  else if c = 0x0A then [0x5C, 0x6E]
  else if c = 0x0D then [0x5C, 0x72]
  else if c = 0x09 then [0x5C, 0x74]
  else if c ≤ 0x1F then [0x5C, 0x75, 0x30, 0x30, hexDigit (c / 16), hexDigit (c % 16)]
  else [c]

/-- The claim-side escaping of a byte string. -/
def rfc_escape_string (s : List Nat) : List Nat :=
  [0x22] ++ s.flatMap rfc_escape_byte ++ [0x22]

/-! ### Concrete environments used as witnesses and counterexamples -/

/-- A host with the GPIO sysfs present, all pin operations succeeding, PWM,
SPI and UART devices present, but no `/dev/i2c-*` node. -/
def gpioCx : GPIOEnv :=
  { gpio_available := true
    exportOk := fun _ => true
    setDirOk := fun _ _ => true
    writeOk := fun _ _ => true
    readVal := fun _ => 0
    pwmChipExists := true
    i2cDev0 := false
    i2cDev1 := false
    spiDev0 := true
    spiDev1 := false
    uartDevAMA0 := true
    uartDevS0 := false
    monitorRead := fun _ => 0 }

/-- A host without the GPIO sysfs interface. -/
def gpioOff : GPIOEnv :=
  { gpio_available := false
    exportOk := fun _ => true
    setDirOk := fun _ _ => true
    writeOk := fun _ _ => true
    readVal := fun _ => 0
    pwmChipExists := true
    i2cDev0 := true
    i2cDev1 := false
    spiDev0 := true
    spiDev1 := false
    uartDevAMA0 := true
    uartDevS0 := false
    monitorRead := fun _ => 0 }

/-- A host with `/proc/cpuinfo`, two hardware threads, a 45-degree sensor and
no NPU. -/
def cpuEx : CPUEnv :=
  { cpu_available := true
    tempC := 45
    num_threads := 2
    npu_available := false
    npuDevNode := false
    npuLsmod := false
    monitorTemp := fun _ => 45 }

/-- A host with storage available and `/proc/diskstats` readable at every
poll. -/
def stEx : StorageEnv :=
  { storage_available := true
    devices := []
    ddWriteOk := true
    ddReadOk := true
    lspciStorage := false
    diskSample := fun _ => some (5, 7) }

/-- A networking host whose reference hosts are all reachable on
odd-numbered monitoring checks and all unreachable on even-numbered ones:
connectivity-check failures alternate with successes. -/
def netEx : NetEnv :=
  { networking_available := true
    ifaces := [{ is_up := true }]
    pingShort := fun _ => true
    dnsOk := fun _ => true
    pingMonitor := fun k _ => decide (k % 2 = 1) }

/-- A runner environment in which every tester is available and every run
succeeds. -/
def runEx : RunnerEnv :=
  { avail := fun _ => true
    shortResult := fun _ => TestResult.SUCCESS
    monitorResult := fun _ _ => TestResult.SUCCESS }

/-! ## Helper lemmas -/

/-- The final verdict of every `short_test` aggregation is `SUCCESS` or
`FAILURE`, never `TIMEOUT`. -/
theorem verdict_ne_timeout (b : Bool) : verdict b ≠ TestResult.TIMEOUT := by
  cases b <;> decide

/-- Success characterization of the GPIO aggregation: every sub-check is
compared against `SUCCESS` only. -/
theorem gpio_core_succ_iff (a b c d e : TestResult) :
    GPIOTester.short_test_core a b c d e = TestResult.SUCCESS ↔
      (a = TestResult.SUCCESS ∧ b = TestResult.SUCCESS ∧ c = TestResult.SUCCESS ∧
        d = TestResult.SUCCESS ∧ e = TestResult.SUCCESS) := by
  revert a b c d e; decide

/-- Success characterization of the CPU aggregation: temperature and NPU
excuse `NOT_SUPPORTED`, benchmark and multi-core do not. -/
theorem cpu_core_succ_iff (a b c d : TestResult) :
    CPUTester.short_test_core a b c d = TestResult.SUCCESS ↔
      (a = TestResult.SUCCESS ∧ (b = TestResult.SUCCESS ∨ b = TestResult.NOT_SUPPORTED) ∧
        c = TestResult.SUCCESS ∧ (d = TestResult.SUCCESS ∨ d = TestResult.NOT_SUPPORTED)) := by
  revert a b c d; decide

/-- Success characterization of the camera aggregation: both sub-checks
excuse `NOT_SUPPORTED`. -/
theorem camera_core_succ_iff (a b : TestResult) :
    CameraTester.short_test_core a b = TestResult.SUCCESS ↔
      ((a = TestResult.SUCCESS ∨ a = TestResult.NOT_SUPPORTED) ∧
        (b = TestResult.SUCCESS ∨ b = TestResult.NOT_SUPPORTED)) := by
  revert a b; decide

/-- Success characterization of the GPU aggregation: OpenGL and Vulkan
excuse `NOT_SUPPORTED`, the memory check does not. -/
theorem gpu_core_succ_iff (a b c : TestResult) :
    GPUTester.short_test_core a b c = TestResult.SUCCESS ↔
      ((a = TestResult.SUCCESS ∨ a = TestResult.NOT_SUPPORTED) ∧
        (b = TestResult.SUCCESS ∨ b = TestResult.NOT_SUPPORTED) ∧
        c = TestResult.SUCCESS) := by
  revert a b c; decide

/-- Success characterization of the memory aggregation: only the ECC
sub-check excuses `NOT_SUPPORTED`. -/
theorem memory_core_succ_iff (a b c : TestResult) :
    MemoryTester.short_test_core a b c = TestResult.SUCCESS ↔
      (a = TestResult.SUCCESS ∧ b = TestResult.SUCCESS ∧
        (c = TestResult.SUCCESS ∨ c = TestResult.NOT_SUPPORTED)) := by
  revert a b c; decide

/-- Success characterization of the storage aggregation: all five sub-checks
excuse `NOT_SUPPORTED`. -/
theorem storage_core_succ_iff (a b c d e : TestResult) :
    StorageTester.short_test_core a b c d e = TestResult.SUCCESS ↔
      ((a = TestResult.SUCCESS ∨ a = TestResult.NOT_SUPPORTED) ∧
        (b = TestResult.SUCCESS ∨ b = TestResult.NOT_SUPPORTED) ∧
        (c = TestResult.SUCCESS ∨ c = TestResult.NOT_SUPPORTED) ∧
        (d = TestResult.SUCCESS ∨ d = TestResult.NOT_SUPPORTED) ∧
        (e = TestResult.SUCCESS ∨ e = TestResult.NOT_SUPPORTED)) := by
  revert a b c d e; decide

/-- Success characterization of the display aggregation: all three
sub-checks excuse `NOT_SUPPORTED`. -/
theorem display_core_succ_iff (a b c : TestResult) :
    DisplayTester.short_test_core a b c = TestResult.SUCCESS ↔
      ((a = TestResult.SUCCESS ∨ a = TestResult.NOT_SUPPORTED) ∧
        (b = TestResult.SUCCESS ∨ b = TestResult.NOT_SUPPORTED) ∧
        (c = TestResult.SUCCESS ∨ c = TestResult.NOT_SUPPORTED)) := by
  revert a b c; decide

/-- Success characterization of the USB aggregation: only the transfer
sub-check excuses `NOT_SUPPORTED`. -/
theorem usb_core_succ_iff (a b c d : TestResult) :
    USBTester.short_test_core a b c d = TestResult.SUCCESS ↔
      (a = TestResult.SUCCESS ∧ b = TestResult.SUCCESS ∧
        (c = TestResult.SUCCESS ∨ c = TestResult.NOT_SUPPORTED) ∧
        d = TestResult.SUCCESS) := by
  revert a b c d; decide

/-- Success characterization of the networking aggregation: connectivity and
latency excuse `NOT_SUPPORTED`, interfaces and DNS do not. -/
theorem networking_core_succ_iff (a b c d : TestResult) :
    NetworkingTester.short_test_core a b c d = TestResult.SUCCESS ↔
      (a = TestResult.SUCCESS ∧ (b = TestResult.SUCCESS ∨ b = TestResult.NOT_SUPPORTED) ∧
        c = TestResult.SUCCESS ∧ (d = TestResult.SUCCESS ∨ d = TestResult.NOT_SUPPORTED)) := by
  revert a b c d; decide

/-- Success characterization of the power aggregation: monitoring and
battery excuse `NOT_SUPPORTED`, source and power management do not. -/
theorem power_core_succ_iff (a b c d : TestResult) :
    PowerTester.short_test_core a b c d = TestResult.SUCCESS ↔
      (a = TestResult.SUCCESS ∧ (b = TestResult.SUCCESS ∨ b = TestResult.NOT_SUPPORTED) ∧
        (c = TestResult.SUCCESS ∨ c = TestResult.NOT_SUPPORTED) ∧
        d = TestResult.SUCCESS) := by
  revert a b c d; decide

/-- Success characterization of the form-factor aggregation: GPIO pins and
temperature excuse `NOT_SUPPORTED`, board info and interfaces do not. -/
theorem ff_core_succ_iff (a b c d : TestResult) :
    FormFactorTester.short_test_core a b c d = TestResult.SUCCESS ↔
      (a = TestResult.SUCCESS ∧ (b = TestResult.SUCCESS ∨ b = TestResult.NOT_SUPPORTED) ∧
        c = TestResult.SUCCESS ∧ (d = TestResult.SUCCESS ∨ d = TestResult.NOT_SUPPORTED)) := by
  revert a b c d; decide

/-- A `FAILURE` in the strict multi-core slot forces the CPU aggregate to
`FAILURE` regardless of the other sub-checks. -/
theorem cpu_core_fail_multi (a b d : TestResult) :
    CPUTester.short_test_core a b TestResult.FAILURE d = TestResult.FAILURE := by
  revert a b d; decide

/-! ## Claim theorems -/

/-- C1: for every one of the eleven testers and every duration, an
unavailable peripheral makes both `short_test()` and `monitor_test(d)`
report `NOT_SUPPORTED`, independent of `d`. -/
theorem c1_unavailable_not_supported (p : Peripheral) (e : EnvOf p) (d : Int)
    (h : availOf p e = false) :
    shortTestOf p e = TestResult.NOT_SUPPORTED ∧
      monitorTestOf p e d = TestResult.NOT_SUPPORTED := by
  cases p <;>
    (simp only [availOf] at h;
      constructor <;>
        simp [shortTestOf, monitorTestOf, h, CPUTester.short_test, CPUTester.monitor_test,
          GPIOTester.short_test, GPIOTester.monitor_test, CameraTester.short_test,
          CameraTester.monitor_test, GPUTester.short_test, GPUTester.monitor_test,
          MemoryTester.short_test, MemoryTester.monitor_test, StorageTester.short_test,
          StorageTester.monitor_test, DisplayTester.short_test, DisplayTester.monitor_test,
          USBTester.short_test, USBTester.monitor_test, NetworkingTester.short_test,
          NetworkingTester.monitor_test, PowerTester.short_test, PowerTester.monitor_test,
          FormFactorTester.short_test, FormFactorTester.monitor_test])

/-- Witness for C1 at the GPIO tester with the sysfs interface absent and a
5-second duration. -/
theorem c1_witness :
    availOf Peripheral.gpio gpioOff = false ∧
      shortTestOf Peripheral.gpio gpioOff = TestResult.NOT_SUPPORTED ∧
      monitorTestOf Peripheral.gpio gpioOff 5 = TestResult.NOT_SUPPORTED :=
  ⟨rfl, (c1_unavailable_not_supported Peripheral.gpio gpioOff 5 rfl).1,
    (c1_unavailable_not_supported Peripheral.gpio gpioOff 5 rfl).2⟩

/-- C7: for every tester, every input state and every duration, neither
`short_test()` nor `monitor_test()` ever reports `TIMEOUT`: the variant is
declared in `TestResult` but produced by no check. -/
theorem c7_no_timeout (p : Peripheral) (e : EnvOf p) (d : Int) :
    shortTestOf p e ≠ TestResult.TIMEOUT ∧ monitorTestOf p e d ≠ TestResult.TIMEOUT := by
  cases p with
  | cpu =>
    constructor
    · show CPUTester.short_test e ≠ _
      unfold CPUTester.short_test
      split
      · decide
      · exact verdict_ne_timeout _
    · show CPUTester.monitor_test e d ≠ _
      unfold CPUTester.monitor_test
      split
      · decide
      · unfold CPUTester.monitor_temperature
        split
        · decide
        · split <;> decide
  | gpio =>
    constructor
    · show GPIOTester.short_test e ≠ _
      unfold GPIOTester.short_test
      split
      · decide
      · exact verdict_ne_timeout _
    · show GPIOTester.monitor_test e d ≠ _
      unfold GPIOTester.monitor_test
      split
      · decide
      · unfold GPIOTester.monitor_gpio_stability
        split
        · decide
        · split <;> decide
  | camera =>
    constructor
    · show CameraTester.short_test e ≠ _
      unfold CameraTester.short_test
      split
      · decide
      · exact verdict_ne_timeout _
    · show CameraTester.monitor_test e d ≠ _
      unfold CameraTester.monitor_test
      split
      · decide
      · unfold CameraTester.monitor_camera_streaming
        split
        · decide
        · split <;> decide
  | gpu =>
    constructor
    · show GPUTester.short_test e ≠ _
      unfold GPUTester.short_test
      split
      · decide
      · exact verdict_ne_timeout _
    · show GPUTester.monitor_test e d ≠ _
      unfold GPUTester.monitor_test
      split
      · decide
      · unfold GPUTester.monitor_gpu_temperature
        split
        · decide
        · split <;> decide
  | memory =>
    constructor
    · show MemoryTester.short_test e ≠ _
      unfold MemoryTester.short_test
      split
      · decide
      · exact verdict_ne_timeout _
    · show MemoryTester.monitor_test e d ≠ _
      unfold MemoryTester.monitor_test
      split
      · decide
      · unfold MemoryTester.monitor_memory_usage
        split
        · decide
        · split
          · decide
          · split <;> decide
  | storage =>
    constructor
    · show StorageTester.short_test e ≠ _
      unfold StorageTester.short_test
      split
      · decide
      · exact verdict_ne_timeout _
    · show StorageTester.monitor_test e d ≠ _
      unfold StorageTester.monitor_test
      split
      · decide
      · unfold StorageTester.monitor_storage_io
        split
        · decide
        · split <;> decide
  | display =>
    constructor
    · show DisplayTester.short_test e ≠ _
      unfold DisplayTester.short_test
      split
      · decide
      · exact verdict_ne_timeout _
    · show DisplayTester.monitor_test e d ≠ _
      unfold DisplayTester.monitor_test
      split
      · decide
      · unfold DisplayTester.monitor_display_connection
        split
        · decide
        · split <;> decide
  | usb =>
    constructor
    · show USBTester.short_test e ≠ _
      unfold USBTester.short_test
      split
      · decide
      · exact verdict_ne_timeout _
    · show USBTester.monitor_test e d ≠ _
      unfold USBTester.monitor_test
      split
      · decide
      · unfold USBTester.monitor_usb_devices
        split <;> decide
  | networking =>
    constructor
    · show NetworkingTester.short_test e ≠ _
      unfold NetworkingTester.short_test
      split
      · decide
      · exact verdict_ne_timeout _
    · show NetworkingTester.monitor_test e d ≠ _
      unfold NetworkingTester.monitor_test
      split
      · decide
      · unfold NetworkingTester.monitor_connectivity
        split <;> decide
  | power =>
    constructor
    · show PowerTester.short_test e ≠ _
      unfold PowerTester.short_test
      split
      · decide
      · exact verdict_ne_timeout _
    · show PowerTester.monitor_test e d ≠ _
      unfold PowerTester.monitor_test
      split
      · decide
      · unfold PowerTester.monitor_power_consumption
        split <;> decide
  | form_factor =>
    constructor
    · show FormFactorTester.short_test e ≠ _
      unfold FormFactorTester.short_test
      split
      · decide
      · exact verdict_ne_timeout _
    · show FormFactorTester.monitor_test e d ≠ _
      unfold FormFactorTester.monitor_test
      split
      · decide
      · unfold FormFactorTester.monitor_interfaces
        split <;> decide

/-- Counterexample to C2 as stated: on an available GPIO host whose only
missing probe is the I2C device node, every sub-check is `SUCCESS` except
`test_i2c`, which is `NOT_SUPPORTED` — so every sub-check that did not
return `NOT_SUPPORTED` returned `SUCCESS` — yet `short_test` reports
`FAILURE`, because `GPIOTester::short_test` counts a `NOT_SUPPORTED`
sub-check as a failure. -/
theorem c2_counterexample :
    availOf Peripheral.gpio gpioCx = true ∧
      GPIOTester.test_digital_io gpioCx = TestResult.SUCCESS ∧
      GPIOTester.test_pwm gpioCx = TestResult.SUCCESS ∧
      GPIOTester.test_i2c gpioCx = TestResult.NOT_SUPPORTED ∧
      GPIOTester.test_spi gpioCx = TestResult.SUCCESS ∧
      GPIOTester.test_uart gpioCx = TestResult.SUCCESS ∧
      shortTestOf Peripheral.gpio gpioCx = TestResult.FAILURE :=
  ⟨rfl, rfl, rfl, rfl, rfl, rfl, rfl⟩

/-- C2 (amended): for every available tester, `short_test()` is `SUCCESS`
iff every sub-check passes under the per-sub-check rule the code implements:
a `NOT_SUPPORTED` result is excluded from the aggregate only for the camera,
storage and display sub-checks, CPU temperature and NPU, GPU OpenGL and
Vulkan, memory ECC, USB transfer, networking connectivity and latency, power
monitoring and battery, and form-factor GPIO-pin and temperature sub-checks;
for every other sub-check (all five GPIO sub-checks, CPU benchmark and
multi-core, GPU memory, and the remaining strict positions) any
non-`SUCCESS` result — `NOT_SUPPORTED` included — counts as failure. -/
theorem c2_amended_aggregation (p : Peripheral) (e : EnvOf p) (h : availOf p e = true) :
    shortTestOf p e = TestResult.SUCCESS ↔ shortChecksOk p e := by
  cases p with
  | cpu =>
    simp only [availOf] at h
    simp only [shortTestOf, CPUTester.short_test, h, Bool.not_true, Bool.false_eq_true,
      if_false, shortChecksOk, lenientOK]
    exact cpu_core_succ_iff _ _ _ _
  | gpio =>
    simp only [availOf] at h
    simp only [shortTestOf, GPIOTester.short_test, h, Bool.not_true, Bool.false_eq_true,
      if_false, shortChecksOk, lenientOK]
    exact gpio_core_succ_iff _ _ _ _ _
  | camera =>
    simp only [availOf] at h
    simp only [shortTestOf, CameraTester.short_test, h, Bool.not_true, Bool.false_eq_true,
      if_false, shortChecksOk, lenientOK]
    exact camera_core_succ_iff _ _
  | gpu =>
    simp only [availOf] at h
    simp only [shortTestOf, GPUTester.short_test, h, Bool.not_true, Bool.false_eq_true,
      if_false, shortChecksOk, lenientOK]
    exact gpu_core_succ_iff _ _ _
  | memory =>
    simp only [availOf] at h
    simp only [shortTestOf, MemoryTester.short_test, h, Bool.not_true, Bool.false_eq_true,
      if_false, shortChecksOk, lenientOK]
    exact memory_core_succ_iff _ _ _
  | storage =>
    simp only [availOf] at h
    simp only [shortTestOf, StorageTester.short_test, h, Bool.not_true, Bool.false_eq_true,
      if_false, shortChecksOk, lenientOK]
    exact storage_core_succ_iff _ _ _ _ _
  | display =>
    simp only [availOf] at h
    simp only [shortTestOf, DisplayTester.short_test, h, Bool.not_true, Bool.false_eq_true,
      if_false, shortChecksOk, lenientOK]
    exact display_core_succ_iff _ _ _
  | usb =>
    simp only [availOf] at h
    simp only [shortTestOf, USBTester.short_test, h, Bool.not_true, Bool.false_eq_true,
      if_false, shortChecksOk, lenientOK]
    exact usb_core_succ_iff _ _ _ _
  | networking =>
    simp only [availOf] at h
    simp only [shortTestOf, NetworkingTester.short_test, h, Bool.not_true, Bool.false_eq_true,
      if_false, shortChecksOk, lenientOK]
    exact networking_core_succ_iff _ _ _ _
  | power =>
    simp only [availOf] at h
    simp only [shortTestOf, PowerTester.short_test, h, Bool.not_true, Bool.false_eq_true,
      if_false, shortChecksOk, lenientOK]
    exact power_core_succ_iff _ _ _ _
  | form_factor =>
    simp only [availOf] at h
    simp only [shortTestOf, FormFactorTester.short_test, h, Bool.not_true, Bool.false_eq_true,
      if_false, shortChecksOk, lenientOK]
    exact ff_core_succ_iff _ _ _ _

/-- Witness for C2 (amended) at the available GPIO host `gpioCx`. -/
theorem c2_witness :
    availOf Peripheral.gpio gpioCx = true ∧
      (shortTestOf Peripheral.gpio gpioCx = TestResult.SUCCESS ↔
        shortChecksOk Peripheral.gpio gpioCx) :=
  ⟨rfl, c2_amended_aggregation Peripheral.gpio gpioCx rfl⟩

/-- One `run_test` call preserves the invariant that `failed_tests` counts
the non-`SUCCESS` reports accumulated so far. -/
theorem run_test_preserves_count (env : RunnerEnv) (im : Bool) (dur : Int)
    (st : RunnerState) (name : String)
    (h : st.failed_tests = st.reports.countP (fun r => decide (r ≠ TestResult.SUCCESS))) :
    (run_test env im dur st name).failed_tests =
      (run_test env im dur st name).reports.countP
        (fun r => decide (r ≠ TestResult.SUCCESS)) := by
  unfold run_test
  split
  · exact h
  · split
    · exact h
    · simp only [List.countP_append, List.countP_cons, List.countP_nil, h,
        decide_eq_true_eq]
      split <;> simp

/-- After any request list, `failed_tests` equals the count of non-`SUCCESS`
reports. -/
theorem run_tests_count (env : RunnerEnv) (im : Bool) (dur : Int) :
    ∀ (names : List String) (st : RunnerState),
      st.failed_tests = st.reports.countP (fun r => decide (r ≠ TestResult.SUCCESS)) →
      (names.foldl (run_test env im dur) st).failed_tests =
        (names.foldl (run_test env im dur) st).reports.countP
          (fun r => decide (r ≠ TestResult.SUCCESS))
  | [], _, h => h
  | n :: rest, st, h =>
    run_tests_count env im dur rest (run_test env im dur st n)
      (run_test_preserves_count env im dur st n h)

/-- C3: given the `n` reports accumulated by the runner, the emitted JSON
summary satisfies `total = n`, `failed = count of reports with result not
equal to SUCCESS`, and `passed = n` minus that count. -/
theorem c3_runner_summary (env : RunnerEnv) (im : Bool) (dur : Int) (names : List String) :
    json_summary (run_tests env im dur names) =
      ((run_tests env im dur names).reports.length,
        (run_tests env im dur names).reports.countP
          (fun r => decide (r ≠ TestResult.SUCCESS)),
        (run_tests env im dur names).reports.length -
          (run_tests env im dur names).reports.countP
            (fun r => decide (r ≠ TestResult.SUCCESS))) := by
  have h := run_tests_count env im dur names ⟨[], 0⟩ rfl
  unfold run_tests at h ⊢
  simp [json_summary, h]

/-- The final exit code is 0 iff every accumulated report is `SUCCESS`. -/
theorem finishExit_eq_zero_iff (env : RunnerEnv) (im : Bool) (dur : Int)
    (names : List String) :
    finishExit (run_tests env im dur names) = 0 ↔
      ∀ r ∈ (run_tests env im dur names).reports, r = TestResult.SUCCESS := by
  have h := run_tests_count env im dur names ⟨[], 0⟩ rfl
  unfold run_tests at h
  unfold finishExit run_tests
  rw [h]
  constructor
  · intro h0 r hr
    by_contra hne
    have hpos : 0 <
        (List.foldl (run_test env im dur) ⟨[], 0⟩ names).reports.countP
          (fun r => decide (r ≠ TestResult.SUCCESS)) := by
      apply List.countP_pos_iff.mpr
      exact ⟨r, hr, by simpa using hne⟩
    rw [if_neg (Nat.pos_iff_ne_zero.mp hpos)] at h0
    exact absurd h0 one_ne_zero
  · intro hall
    have hz : (List.foldl (run_test env im dur) ⟨[], 0⟩ names).reports.countP
        (fun r => decide (r ≠ TestResult.SUCCESS)) = 0 := by
      apply List.countP_eq_zero.mpr
      intro r hr
      simp [hall r hr]
    rw [if_pos hz]

/-- C4 (code bug): on the input byte 0x01 the implemented escaping emits
`"\u000` followed by the raw control byte 0x01 and the closing quote — the
character inserter ignores `std::hex` and pads the raw byte — whereas the
claimed (RFC 8259) escaping emits `"\u0001"`; the two outputs differ. -/
theorem c4_escape_control_byte :
    JsonWriter.escape_string [0x01] = [0x22, 0x5C, 0x75, 0x30, 0x30, 0x30, 0x01, 0x22] ∧
      rfc_escape_string [0x01] = [0x22, 0x5C, 0x75, 0x30, 0x30, 0x30, 0x31, 0x22] ∧
      JsonWriter.escape_string [0x01] ≠ rfc_escape_string [0x01] := by
  decide

/-- Counterexample to C5 as stated: the subcommand `test` with neither
`--all` nor peripheral names parses as a valid subcommand and executes zero
tests, yet the process exits with code 1, not 0. -/
theorem c5_counterexample :
    (mainRun runEx (Command.test false [])).2.reports = [] ∧
      (mainRun runEx (Command.test false [])).1 = 1 :=
  ⟨rfl, rfl⟩

/-- C5 (amended): the exit code is 0 iff the subcommand is `list`, or it is
`test`/`monitor` with an actual selection (`--all` or at least one
peripheral name) and every executed test reported `SUCCESS`.  Zero executed
tests with a selection (unknown names, unavailable peripherals) still exit
0, but `test`/`monitor` without a selection and a missing subcommand exit 1. -/
theorem c5_amended_exit_code (env : RunnerEnv) (cmd : Command) :
    (mainRun env cmd).1 = 0 ↔
      (cmd = Command.list ∨
        (selectsTests cmd ∧ ∀ r ∈ (mainRun env cmd).2.reports, r = TestResult.SUCCESS)) := by
  cases cmd with
  | list => simp [mainRun, selectsTests]
  | noCommand => simp [mainRun, selectsTests]
  | test all names =>
    cases all with
    | true =>
      simp only [mainRun, if_true, selectsTests]
      rw [finishExit_eq_zero_iff]
      simp
    | false =>
      cases names with
      | nil => simp [mainRun, selectsTests]
      | cons n rest =>
        simp only [mainRun, selectsTests, List.isEmpty_cons, Bool.not_false, Bool.false_eq_true,
          if_false, if_true]
        rw [finishExit_eq_zero_iff]
        simp
  | monitor all dur names =>
    cases all with
    | true =>
      simp only [mainRun, if_true, selectsTests]
      rw [finishExit_eq_zero_iff]
      simp
    | false =>
      cases names with
      | nil => simp [mainRun, selectsTests]
      | cons n rest =>
        simp only [mainRun, selectsTests, List.isEmpty_cons, Bool.not_false, Bool.false_eq_true,
          if_false, if_true]
        rw [finishExit_eq_zero_iff]
        simp

/-- The connectivity-monitoring loop stays stable iff the cumulative number
of failed checks it sees, added to the failure count carried in, stays at
most 3. -/
theorem net_monitor_loop_iff (e : NetEnv) :
    ∀ (rem k f : Nat), f ≤ 3 →
      (NetworkingTester.monitor_loop e k rem f = true ↔
        (List.range' k rem).countP
            (fun j =>
              NetworkingTester.test_connectivity (e.pingMonitor j) != TestResult.SUCCESS) +
          f ≤ 3) := by
  intro rem
  induction rem with
  | zero =>
    intro k f hf
    simp [NetworkingTester.monitor_loop, hf]
  | succ n ih =>
    intro k f hf
    rw [List.range'_succ, List.countP_cons]
    unfold NetworkingTester.monitor_loop
    by_cases hc : NetworkingTester.test_connectivity (e.pingMonitor k) ≠ TestResult.SUCCESS
    · rw [if_pos hc]
      have hb : (NetworkingTester.test_connectivity (e.pingMonitor k) !=
          TestResult.SUCCESS) = true := by
        simpa using hc
      simp only [hb, if_true]
      by_cases hf3 : 3 < f + 1
      · rw [if_pos hf3]
        simp only [Bool.false_eq_true, false_iff]
        omega
      · rw [if_neg hf3]
        rw [ih (k + 1) (f + 1) (by omega)]
        omega
    · rw [if_neg hc]
      rw [not_ne_iff] at hc
      have hb : (NetworkingTester.test_connectivity (e.pingMonitor k) !=
          TestResult.SUCCESS) = false := by
        simp [hc]
      simp only [hb, Bool.false_eq_true, if_false]
      rw [ih (k + 1) f hf]
      omega

set_option maxRecDepth 8000 in
/-- Counterexample to C6 as stated: on `netEx` the seven connectivity checks
of a 70-second monitoring window alternate failure and success (no two
consecutive failures, four failures in total), yet `monitor_connectivity`
returns `FAILURE`, because the failure counter accumulates and is never
reset by a success. -/
theorem c6_counterexample :
    ((List.range 7).map
        (fun k => NetworkingTester.test_connectivity (netEx.pingMonitor k))) =
      [TestResult.FAILURE, TestResult.SUCCESS, TestResult.FAILURE, TestResult.SUCCESS,
        TestResult.FAILURE, TestResult.SUCCESS, TestResult.FAILURE] ∧
      polls 70 10 = 7 ∧
      NetworkingTester.monitor_connectivity netEx 70 = TestResult.FAILURE := by
  decide

/-- C6 (amended): the connectivity check returns `SUCCESS` iff at least 2 of
the 3 reference hosts are reachable, and the networking monitor returns
`SUCCESS` iff at most 3 connectivity checks of the whole window failed — the
failure count is cumulative, not consecutive, so more than 3 failures cause
`FAILURE` even when successes separate them. -/
theorem c6_amended_connectivity :
    (∀ ping : String → Bool,
        NetworkingTester.test_connectivity ping = TestResult.SUCCESS ↔
          2 ≤ NetworkingTester.test_hosts.countP ping) ∧
      (∀ (e : NetEnv) (d : Int),
        NetworkingTester.monitor_connectivity e d = TestResult.SUCCESS ↔
          (List.range (polls d 10)).countP
              (fun j =>
                NetworkingTester.test_connectivity (e.pingMonitor j) !=
                  TestResult.SUCCESS) ≤ 3) := by
  constructor
  · intro ping
    unfold NetworkingTester.test_connectivity
    split
    · rename_i h
      simp [h]
    · rename_i h
      simp [h]
  · intro e d
    unfold NetworkingTester.monitor_connectivity
    have h := net_monitor_loop_iff e (polls d 10) 0 0 (by omega)
    rw [Nat.add_zero] at h
    rw [List.range_eq_range']
    by_cases hb : NetworkingTester.monitor_loop e 0 (polls d 10) 0 = true
    · rw [if_pos hb]
      simp [h.mp hb]
    · rw [if_neg hb]
      constructor
      · intro hFS
        exact absurd hFS (by decide)
      · intro hc
        exact absurd (h.mpr hc) hb

set_option maxRecDepth 8000 in
/-- Worker thread 0 of the multi-core check sums `j * 0` over `j < 1000`,
which is 0. -/
theorem thread_sum_zero : CPUTester.thread_sum 0 = 0 := by
  decide

/-- C8: whenever `hardware_concurrency()` reports at least one core, the
multi-core sub-check returns `FAILURE` (thread 0 computes 0 and a zero
results slot is treated as an incomplete thread), so on such a host with CPU
info available `short_test()` reports `FAILURE`, never `SUCCESS`. -/
theorem c8_multicore_failure (e : CPUEnv) (h : 1 ≤ e.num_threads) :
    CPUTester.test_multi_core e = TestResult.FAILURE ∧
      (e.cpu_available = true → CPUTester.short_test e = TestResult.FAILURE) := by
  have hm : CPUTester.test_multi_core e = TestResult.FAILURE := by
    unfold CPUTester.test_multi_core
    rw [if_neg (by omega)]
    rw [if_pos ?hany]
    case hany =>
      apply List.any_eq_true.mpr
      refine ⟨CPUTester.thread_sum 0, List.mem_map.mpr ⟨0, List.mem_range.mpr (by omega), rfl⟩, ?_⟩
      rw [thread_sum_zero]
      decide
  refine ⟨hm, fun ha => ?_⟩
  unfold CPUTester.short_test
  simp only [ha, Bool.not_true, Bool.false_eq_true, if_false, hm]
  exact cpu_core_fail_multi _ _ _

/-- Witness for C8 at a two-core host with CPU info available. -/
theorem c8_witness :
    1 ≤ cpuEx.num_threads ∧ cpuEx.cpu_available = true ∧
      CPUTester.test_multi_core cpuEx = TestResult.FAILURE ∧
      CPUTester.short_test cpuEx = TestResult.FAILURE :=
  ⟨by decide, rfl, (c8_multicore_failure cpuEx (by decide)).1,
    (c8_multicore_failure cpuEx (by decide)).2 rfl⟩

/-- C9: when storage is available, `monitor_test(d)` returns `FAILURE`
whenever the window yields fewer than two `/proc/diskstats` samples —
regardless of actual I/O activity — and in particular it always does so for
`d = 1` second, where the 1-second polling interval admits at most one
sample. -/
theorem c9_storage_monitor_failure (e : StorageEnv) (d : Int)
    (h : e.storage_available = true) :
    ((StorageTester.io_samples e d).length < 2 →
        StorageTester.monitor_test e d = TestResult.FAILURE) ∧
      StorageTester.monitor_test e 1 = TestResult.FAILURE := by
  have key : ∀ d2 : Int, (StorageTester.io_samples e d2).length < 2 →
      StorageTester.monitor_test e d2 = TestResult.FAILURE := by
    intro d2 hlen
    unfold StorageTester.monitor_test
    simp only [h, Bool.not_true, Bool.false_eq_true, if_false]
    unfold StorageTester.monitor_storage_io
    rw [if_pos hlen]
  refine ⟨key d, key 1 ?_⟩
  unfold StorageTester.io_samples
  have h1 : polls 1 1 = 1 := by decide
  rw [h1]
  have h2 := List.length_filterMap_le e.diskSample (List.range 1)
  simp only [List.length_range] at h2
  omega

/-- Witness for C9 at an available storage host polled for one second. -/
theorem c9_witness :
    stEx.storage_available = true ∧ (StorageTester.io_samples stEx 1).length < 2 ∧
      StorageTester.monitor_test stEx 1 = TestResult.FAILURE :=
  ⟨rfl, by decide, (c9_storage_monitor_failure stEx 1 rfl).2⟩

/-- C10: when the export and direction setup of `monitor_gpio_stability`
succeed and the requested duration is non-positive, the sampling loop body
never executes, the final ratio is the unguarded division `0.0 / 0` (NaN,
which fails the `>= 0.95` comparison), and the function returns `FAILURE` —
in particular it does not return `SUCCESS`. -/
theorem c10_gpio_stability_zero_reads (e : GPIOEnv) (d : Int)
    (h1 : e.exportOk 2 = true) (h2 : e.setDirOk 2 false = true) (hd : d ≤ 0) :
    GPIOTester.monitor_gpio_stability e d = TestResult.FAILURE := by
  have hp : polls100ms d = 0 := by
    unfold polls100ms
    rw [if_pos hd]
  unfold GPIOTester.monitor_gpio_stability
  simp [h1, h2, hp, stabilityPass]

/-- Witness for C10 at a GPIO host with successful setup and duration 0. -/
theorem c10_witness :
    gpioCx.exportOk 2 = true ∧ gpioCx.setDirOk 2 false = true ∧ ((0 : Int) ≤ 0) ∧
      GPIOTester.monitor_gpio_stability gpioCx 0 = TestResult.FAILURE :=
  ⟨rfl, rfl, by decide, c10_gpio_stability_zero_reads gpioCx 0 rfl rfl (by decide)⟩

end Imx93
